import Mathlib

/-!
# Verification of the OpenForge Design Validation & Optimization Engine

Shallow embedding of the engine's core algorithms, translated from the
Python sources:

* `src/drone_2/app/services/physics_service.py` (mass / TWR estimator),
* `src/drone_4/app/services/compatibility_service.py` (compatibility validator),
* `src/drone/scripts/prof_grade_test.py` (bounded revision loop),
* `src/drone_3/app/services/fusion_service.py` (candidate fusion & ranking).

Modelling conventions used throughout:

* Python `float` arithmetic is modelled as exact arithmetic over `ℚ`.
  Literal float constants become the corresponding rationals.
* A Python value that may be a number or a string (the loosely typed
  `specs` dictionaries) is modelled by the inductive type `PyVal`.
* Dictionaries become association lists whose insert operation updates an
  existing key in place (Python dicts preserve first-insertion order).
* External effects (web search, scraping, LLM calls, the `calc_twr.py`
  subprocess, which is not part of the repository sources) are modelled as
  oracle functions supplied in an environment structure, so theorems
  quantify over every possible sequence of external outcomes.
* `float(...)` / `int(...)` string parsing is modelled for the plain
  literal forms (optional sign, digits, optional decimal point); exotic
  forms (exponents, `inf`, `nan`, underscores) are treated as parse
  failures, which the code under analysis catches and degrades in the
  same way as any other parse failure.
-/

/-- A loosely typed Python scalar as found in `specs` dictionaries. -/
inductive PyVal where
  | num (q : ℚ)
  | str (s : String)
deriving DecidableEq, Repr

/-- Python truthiness for a `PyVal`: `0` and `""` are falsy. -/
def PyVal.truthy : PyVal → Bool
  | .num q => q ≠ 0
  | .str s => s ≠ ""

/-- Truthiness of an optional value (`None` is falsy). -/
def pyTruthy : Option PyVal → Bool
  | none => false
  | some v => v.truthy

/-- Python `a or b` on optional spec values: keep `a` when truthy. -/
def pyOr (a b : Option PyVal) : Option PyVal :=
  if pyTruthy a then a else b

/-- Whether `pat` occurs as a contiguous run inside `s` (char lists). -/
def isPrefixL : List Char → List Char → Bool
  | [], _ => true
  | _ :: _, [] => false
  | p :: ps, c :: cs => p = c && isPrefixL ps cs

/-- Substring search on char lists. -/
def hasInfixL (pat : List Char) : List Char → Bool
  | [] => isPrefixL pat []
  | c :: cs => isPrefixL pat (c :: cs) || hasInfixL pat cs

/-- Python `pat in s` substring test. -/
def containsSub (s pat : String) : Bool :=
  hasInfixL pat.data s.data

/-- Python `any(x in s for x in pats)`. -/
def containsAny (s : String) (pats : List String) : Bool :=
  pats.any (fun p => containsSub s p)

/-- ASCII lowercase conversion of one character (Python `.lower()`; the
sources only compare ASCII patterns, so other characters pass through). -/
def lowerChar (c : Char) : Char :=
  match c with
  | 'A' => 'a' | 'B' => 'b' | 'C' => 'c' | 'D' => 'd' | 'E' => 'e'
  | 'F' => 'f' | 'G' => 'g' | 'H' => 'h' | 'I' => 'i' | 'J' => 'j'
  | 'K' => 'k' | 'L' => 'l' | 'M' => 'm' | 'N' => 'n' | 'O' => 'o'
  | 'P' => 'p' | 'Q' => 'q' | 'R' => 'r' | 'S' => 's' | 'T' => 't'
  | 'U' => 'u' | 'V' => 'v' | 'W' => 'w' | 'X' => 'x' | 'Y' => 'y'
  | 'Z' => 'z' | c => c

/-- Python `s.lower()`. -/
def toLowerStr (s : String) : String :=
  ⟨s.data.map lowerChar⟩

/-- Whitespace as stripped by Python numeric conversions. -/
def isSpaceChar (c : Char) : Bool :=
  c = ' ' || c = '\t' || c = '\n' || c = '\r'

/-- Strip leading and trailing whitespace from a char list. -/
def trimChars (l : List Char) : List Char :=
  ((l.dropWhile isSpaceChar).reverse.dropWhile isSpaceChar).reverse

/-- Replace every non-overlapping occurrence of `pat` (left to right);
`fuel` bounds the recursion and starts at the list length. -/
def replaceGo (pat rep : List Char) : ℕ → List Char → List Char
  | 0, l => l
  | fuel + 1, l =>
    match l with
    | [] => []
    | c :: cs =>
      if pat ≠ [] ∧ isPrefixL pat l then
        rep ++ replaceGo pat rep fuel (l.drop pat.length)
      else c :: replaceGo pat rep fuel cs

/-- Python `s.replace(pat, rep)`. -/
def pyReplace (s pat rep : String) : String :=
  ⟨replaceGo pat.data rep.data s.data.length s.data⟩

/-- Python `s[:n]` (character slice). -/
def strTake (s : String) (n : ℕ) : String :=
  ⟨s.data.take n⟩

/-- Leading decimal digits of a char list, and the rest. -/
def takeDigits : List Char → List Char × List Char
  | [] => ([], [])
  | c :: cs =>
    if c.isDigit then
      let (ds, rest) := takeDigits cs
      (c :: ds, rest)
    else ([], c :: cs)

/-- Numeric value of a digit string. -/
def digitsToNat (l : List Char) : ℕ :=
  l.foldl (fun acc c => acc * 10 + (c.toNat - '0'.toNat)) 0

/-- Value of `ds.fs` as a rational. -/
def decimalVal (ds fs : List Char) : ℚ :=
  (digitsToNat ds : ℚ) + (digitsToNat fs : ℚ) / ((10 : ℚ) ^ fs.length)

/-- Parse the regex `\d+(\.\d+)?` starting at the head of `l`
(which is known to be a digit). -/
def numHere (l : List Char) : ℚ :=
  let (ds, rest) := takeDigits l
  match rest with
  | '.' :: r2 =>
    let (fs, _) := takeDigits r2
    if fs = [] then (digitsToNat ds : ℚ) else decimalVal ds fs
  | _ => (digitsToNat ds : ℚ)

/-- Leftmost match of `(\d+(\.\d+)?)`, as in
`re.search(r"(\d+(\.\d+)?)", text)` of `physics_service.py`. -/
def firstNumIn : List Char → Option ℚ
  | [] => none
  | c :: cs => if c.isDigit then some (numHere (c :: cs)) else firstNumIn cs

/-- Body of a Python float literal: `digits[.digits]`, `digits.`, `.digits`. -/
def pyFloatBody : List Char → Option ℚ
  | l =>
    let (ds, rest) := takeDigits l
    match rest with
    | [] => if ds = [] then none else some (digitsToNat ds : ℚ)
    | '.' :: r2 =>
      let (fs, rest2) := takeDigits r2
      if rest2 = [] then
        if ds = [] ∧ fs = [] then none else some (decimalVal ds fs)
      else none
    | _ => none

/-- Python `float(s)` on plain literals (sign, digits, one optional dot). -/
def pyFloat (s : String) : Option ℚ :=
  match trimChars s.data with
  | '-' :: rest => (pyFloatBody rest).map (fun q => -q)
  | '+' :: rest => pyFloatBody rest
  | l => pyFloatBody l

/-- Python `int(s)` on plain literals (sign and digits only). -/
def pyIntStr (s : String) : Option ℤ :=
  let body : List Char → Option ℤ := fun l =>
    if l = [] ∨ ¬ l.all Char.isDigit then none else some (digitsToNat l : ℤ)
  match trimChars s.data with
  | '-' :: rest => (body rest).map (fun z => -z)
  | '+' :: rest => body rest
  | l => body l

/-- Python `int(f)` on a float: truncation toward zero. -/
def truncToInt (q : ℚ) : ℤ :=
  if 0 ≤ q then ⌊q⌋ else ⌈q⌉

/-- Python `int(v)` on a spec value. -/
def pyIntOf : PyVal → Option ℤ
  | .num q => some (truncToInt q)
  | .str s => pyIntStr s

/-- Python `float(v)` on a spec value. -/
def pyFloatOf : PyVal → Option ℚ
  | .num q => some q
  | .str s => pyFloat s

/-- First binding of `k` in an association list (Python dict lookup;
dicts never hold duplicate keys, so first = only). -/
def alookup (l : List (String × PyVal)) (k : String) : Option PyVal :=
  (l.find? (fun kv => kv.1 = k)).map (fun kv => kv.2)

/-- Python `d[k] = v`: update in place when present (keeping the key's
original position), append otherwise. -/
def dictInsert (l : List (String × PyVal)) (k : String) (v : PyVal) :
    List (String × PyVal) :=
  if (l.find? (fun kv => kv.1 = k)).isSome then
    l.map (fun kv => if kv.1 = k then (k, v) else kv)
  else l ++ [(k, v)]

/-- Best-effort textual form of a spec value, standing in for Python's
f-string formatting inside diagnostic messages.  (Numeric formatting of
non-integral floats is abstracted; no claim inspects such a message.) -/
def pyReprVal : PyVal → String
  | .str s => s
  | .num q => if q.den = 1 then toString q.num else toString q

/-! ## Physics estimator — `src/drone_2/app/services/physics_service.py`

`category` and `model_name` are read via `item.get(..., '')` style
accesses, so a missing key behaves exactly like the empty string; the
embedding therefore uses plain `String` fields. -/

namespace Drone2Phys

/-- One BOM entry as consumed by the drone_2 physics service. -/
structure Item where
  category : String
  model_name : String
  specs : List (String × PyVal)
deriving DecidableEq, Repr

/-- `FALLBACK_WEIGHTS` from `physics_service.py` (grams), in the dict's
insertion order, which the fallback loop iterates. -/
def FALLBACK_WEIGHTS : List (String × ℚ) :=
  [("motors", 35), ("frame_kit", 120), ("fc_stack", 25),
   ("camera_vtx_kit", 45), ("battery", 220), ("propellers", 5)]

/-- `_extract_number(text, default)`: numbers pass through, falsy input
yields the default, otherwise the first `\d+(\.\d+)?` match. -/
def extract_number (v : Option PyVal) (default : ℚ) : ℚ :=
  match v with
  | none => default
  | some (.num q) => q
  | some (.str s) =>
    if s = "" then default
    else match firstNumIn s.data with
      | some q => q
      | none => default

/-- The `for k, v in FALLBACK_WEIGHTS.items(): if k in cat` loop:
weight of the first table key occurring in the (lowercased) category,
`0` when none matches. -/
def fallbackWeight (cat : String) : ℚ :=
  match FALLBACK_WEIGHTS.find? (fun kv => containsSub cat kv.1) with
  | some kv => kv.2
  | none => 0

/-- Category quantity: `4 if 'motor' in cat or 'propeller' in cat else 1`. -/
def qtyOf (cat : String) : ℚ :=
  if containsSub cat "motor" || containsSub cat "propeller" then 4 else 1

/-- Per-item resolved unit weight: the `weight_g` spec when it extracts to
a non-zero number, the fallback-table weight otherwise. -/
def unitWeight (item : Item) : ℚ :=
  let w := extract_number (alookup item.specs "weight_g") 0
  if w = 0 then fallbackWeight (toLowerStr item.category) else w

/-- `_calculate_auw(bom)`: accumulate `weight * qty` over the BOM, then
apply the fixed 10% overhead factor. -/
def calculate_auw (bom : List Item) : ℚ :=
  (bom.foldl
    (fun total item => total + unitWeight item * qtyOf (toLowerStr item.category))
    0) * (11/10)

/-- Modelled from the spec: "Total mass = Σ(unit weight × category
quantity) × 1.10", where the quantity is 4 for motor and propeller
categories and 1 otherwise, and a component whose specs yield no usable
weight contributes the documented per-category default weight.  Stated as
a sum over the components, independently of the estimator's
accumulator-then-scale loop shape. -/
def specTotalMass (bom : List Item) : ℚ :=
  (bom.map (fun item =>
    (let w := extract_number (alookup item.specs "weight_g") 0
     if w = 0 then fallbackWeight (toLowerStr item.category) else w) *
    (if containsSub (toLowerStr item.category) "motor" ||
        containsSub (toLowerStr item.category) "propeller" then (4:ℚ) else 1))).sum
    * (11/10)

/-- `math.pi` as used by the stator-volume heuristic.  Float arithmetic is
modelled as exact rational arithmetic; the constant's exact value plays no
role in any claim. -/
def piF : ℚ := 3141592653589793 / 1000000000000000

/-- Leftmost `\d{4}` match: the first window of four consecutive digits,
split into the two-digit stator diameter and height. -/
def first4Digits : List Char → Option (ℚ × ℚ)
  | c1 :: c2 :: c3 :: c4 :: rest =>
    if c1.isDigit && c2.isDigit && c3.isDigit && c4.isDigit then
      some ((digitsToNat [c1, c2] : ℚ), (digitsToNat [c3, c4] : ℚ))
    else first4Digits (c2 :: c3 :: c4 :: rest)
  | _ => none

/-- `_estimate_max_thrust(motor_item, prop_item)` (the `prop_item`
argument is never read by the body).  `none` models the falsy `{}`
default produced when the BOM has no `Motors` entry. -/
def estimate_max_thrust (motor : Option Item) : ℚ :=
  match motor with
  | none => 1000
  | some m =>
    let kv := extract_number (some ((alookup m.specs "kv").getD (.num 1700))) 0
    let statorVol : ℚ :=
      match first4Digits m.model_name.data with
      | some dh => piF * (dh.1 / 2) ^ 2 * dh.2
      | none => 0
    let est0 : ℚ := if statorVol > 0 then statorVol * (3/2) else 1000
    let est1 : ℚ :=
      if kv > 2000 then est0 * (9/10)
      else if kv < 1500 then est0 * (13/10)
      else est0
    max 500 est1

/-- `next((i for i in bom if i['category'] == c), {})`, as an `Option`. -/
def findPart (bom : List Item) (c : String) : Option Item :=
  bom.find? (fun i => i.category = c)

/-- Line 107: `twr = total_thrust_g / mass_g if mass_g > 0 else 0`. -/
def twrOf (totalThrustG massG : ℚ) : ℚ :=
  if massG > 0 then totalThrustG / massG else 0

/-- Line 131: `1.0 / twr if twr > 0 else 0.5` (display rounding of the
emitted config is not modelled; this is the computed fraction). -/
def hoverOf (twr : ℚ) : ℚ :=
  if twr > 0 then 1 / twr else 1/2

/-- The flight-dynamics core of `generate_physics_config(bom)`:
the computed `(twr, hover_throttle)` pair before display rounding. -/
def physicsDynamics (bom : List Item) : ℚ × ℚ :=
  let massG := calculate_auw bom
  let maxThrustPerMotor := estimate_max_thrust (findPart bom "Motors")
  let totalThrustG := maxThrustPerMotor * 4
  let twr := twrOf totalThrustG massG
  (twr, hoverOf twr)

end Drone2Phys

/-! ## Compatibility validator — `src/drone_4/app/services/compatibility_service.py` -/

namespace Drone4Compat

/-- One BOM entry as consumed by the compatibility validator.  `part_type`
and `product_name` are `Option` because the code distinguishes a missing
key (`p['part_type']` raises, `.get` defaults) from a present one;
a missing `engineering_specs` dict behaves exactly like an empty one
(always read via `.get('engineering_specs', {})`). -/
structure Part where
  part_type : Option String
  product_name : Option String
  engineering_specs : List (String × PyVal)
deriving DecidableEq, Repr

/-- One row of the `VOLTAGE_MAP` safe-KV table. -/
structure KvRange where
  min_kv : ℚ
  max_kv : ℚ
deriving DecidableEq, Repr

/-- The service object; `__init__` stores only the `VOLTAGE_MAP`. -/
structure CompatibilityService where
  VOLTAGE_MAP : List (ℕ × KvRange)
deriving DecidableEq, Repr

/-- `CompatibilityService()` as built by `__init__`. -/
def defaultService : CompatibilityService :=
  ⟨[(6, ⟨1100, 2150⟩), (4, ⟨2100, 2900⟩)]⟩

/-- The validator's output record. -/
structure Report where
  valid : Bool
  errors : List String
  warnings : List String
deriving DecidableEq, Repr

/-- The one exception `validate_build` can propagate. -/
inductive PyErr where
  | keyError
deriving DecidableEq, Repr

/-- `get_spec(part, key)` without a default: the raw optional value. -/
def getSpec (p : Part) (key : String) : Option PyVal :=
  alookup p.engineering_specs key

/-- `parts = {p['part_type']: p for p in bom}` lookup: dict construction
lets the last entry of a `part_type` win. -/
def partsGet (bom : List Part) (k : String) : Option Part :=
  (bom.filter (fun p => p.part_type = some k)).getLast?

/-- Raw battery cell value: `get_spec(battery, 'cell_count_s', 0)`. -/
def cellsRawOf (battery : Part) : PyVal :=
  (getSpec battery "cell_count_s").getD (.num 0)

/-- Raw motor KV value:
`get_spec(motor, 'kv_rating') or get_spec(motor, 'kv', 0)`. -/
def kvRawOf (motor : Part) : PyVal :=
  match pyOr (getSpec motor "kv_rating") (some ((getSpec motor "kv").getD (.num 0))) with
  | some v => v
  | none => .num 0

/-- `float(str(cells_raw).lower().replace('s',''))`.  For a numeric value
the `str`/`float` round trip is the identity (a float repr never contains
an `s`). -/
def parseCells : PyVal → Option ℚ
  | .num q => some q
  | .str s => pyFloat (pyReplace (toLowerStr s) "s" "")

/-- `float(str(kv_raw).lower().replace('kv',''))`. -/
def parseKv : PyVal → Option ℚ
  | .num q => some q
  | .str s => pyFloat (pyReplace (toLowerStr s) "kv" "")

/-- The voltage-mismatch error text (f-string with `int(kv)`). -/
def voltErrMsg (kv : ℚ) : String :=
  "CRITICAL: Voltage Mismatch! " ++ toString (truncToInt kv) ++
    "KV Motors will burn out. Target < 2150KV."

/-- The underpowered warning text. -/
def underpoweredMsg (kv : ℚ) : String :=
  "Performance Warning: 4S Battery with " ++ toString (truncToInt kv) ++
    "KV Motors will be underpowered."

/-- CHECK A (voltage matching), run when both a battery and a motor are
present: `(errors, warnings)` contributed by the check.  A failing parse
of either value resets both to `0`, which skips the check. -/
def checkVoltage (battery motor : Part) : List String × List String :=
  let parsed : ℚ × ℚ :=
    match parseCells (cellsRawOf battery), parseKv (kvRawOf motor) with
    | some c, some k => (c, k)
    | _, _ => (0, 0)
  let cells := parsed.1
  let kv := parsed.2
  if cells > 0 ∧ kv > 0 then
    if cells ≥ 6 ∧ kv > 2150 then ([voltErrMsg kv], [])
    else if cells ≤ 4 ∧ kv < 2000 then ([], [underpoweredMsg kv])
    else ([], [])
  else ([], [])

/-- Smart UART count: the `uart_count` spec when it converts with
`int(...)`, otherwise the default assumption of 3. -/
def uartCountOf (fc : Part) : ℤ :=
  match getSpec fc "uart_count" with
  | none => 3
  | some v => (pyIntOf v).getD 3

/-- The I/O bottleneck error text. -/
def ioMsg (uartCount used : ℤ) : String :=
  "I/O Bottleneck: FC has ~" ++ toString uartCount ++
    " UARTs, but peripherals require " ++ toString used ++ ". Upgrade FC."

/-- CHECK B (electronic I/O), contributing errors only. -/
def checkIO (bom : List Part) : List String :=
  match partsGet bom "FC_Stack" with
  | none => []
  | some fc =>
    let uartCount := uartCountOf fc
    let vtxU : ℤ :=
      match partsGet bom "Camera_VTX_Kit" with
      | none => 0
      | some vtx =>
        if containsAny (toLowerStr (vtx.product_name.getD ""))
            ["digital", "o3", "vista", "walksnail"] then 1 else 0
    let rxU : ℤ :=
      match bom.find? (fun p => containsSub (toLowerStr (p.part_type.getD "")) "receiver") with
      | none => 0
      | some rx =>
        if containsAny (toLowerStr (rx.product_name.getD ""))
            ["elrs", "crsf", "crossfire"] then 1 else 0
    let gpsU : ℤ := if (partsGet bom "GPS_Module").isSome then 1 else 0
    let used := vtxU + rxU + gpsU
    if used > uartCount then [ioMsg uartCount used] else []

/-- The geometry-clash error text. -/
def geomMsg (propSize frameMax : PyVal) : String :=
  "Geometry Clash: " ++ pyReprVal propSize ++
    "\" Props are too large for this frame (Max " ++ pyReprVal frameMax ++ "\")."

/-- CHECK C (physical clearance), run when both a frame and props are
present.  The whole body sits in a `try/except: pass`, so any raise
(missing `product_name` during the name guess, an unparseable value in a
`float(...)` conversion) silently skips the check — modelled by the
`Option` chain collapsing to `[]`. -/
def checkGeometry (frame props : Part) : List String :=
  let rawMax := getSpec frame "max_prop_size_inch"
  let frameMaxO : Option PyVal :=
    if pyTruthy rawMax then rawMax
    else
      match frame.product_name with
      | none => none          -- frame['product_name'] raises KeyError
      | some nm =>
        let n := toLowerStr nm
        if containsSub n "7 inch" || containsSub n "chimera7" then
          some (PyVal.num (15/2))
        else if containsSub n "5 inch" || containsSub n "5inch" then
          some (PyVal.num (26/5))
        else some (PyVal.num 99)
  match frameMaxO with
  | none => []
  | some frameMax =>
    let rawProp := pyOr (getSpec props "diameter_inches") (getSpec props "diameter_inch")
    let propSizeO : Option (Option PyVal) :=
      if pyTruthy rawProp then some rawProp
      else
        let mm := getSpec props "diameter_mm"
        if pyTruthy mm then
          match mm with
          | none => none
          | some mv =>
            match pyFloatOf mv with
            | none => none    -- float(mm) raises ValueError
            | some q => some (some (PyVal.num (q / (127/5))))
        else some rawProp
    match propSizeO with
    | none => []
    | some propSize =>
      -- `if frame_max and prop_size:` (frame_max is truthy on every path here)
      match propSize with
      | none => []
      | some pv =>
        if pv.truthy then
          match pyFloatOf pv, pyFloatOf frameMax with
          | some ps, some fm =>
            if ps > fm then [geomMsg pv frameMax] else []
          | _, _ => []        -- float(...) raises ValueError
        else []

/-- `validate_build(self, bom)`.  Building
`parts = {p['part_type']: p for p in bom}` raises `KeyError` as soon as a
record lacks the `part_type` key; afterwards the three checks run
independently and their results are unioned.  The service's
`VOLTAGE_MAP` is never read by the body. -/
def validate_build (_svc : CompatibilityService) (bom : List Part) :
    Except PyErr Report :=
  if bom.any (fun p => p.part_type = none) then .error .keyError
  else
    let va : List String × List String :=
      match partsGet bom "Battery", partsGet bom "Motors" with
      | some b, some m => checkVoltage b m
      | _, _ => ([], [])
    let eb := checkIO bom
    let ec : List String :=
      match partsGet bom "Frame_Kit", partsGet bom "Propellers" with
      | some f, some p => checkGeometry f p
      | _, _ => []
    let errors := va.1 ++ eb ++ ec
    .ok ⟨errors.isEmpty, errors, va.2⟩

/-- Modelled from the spec: the voltage verdict the specification
describes, "battery cell count vs motor KV against a fixed lookup table of
safe ranges per cell count; mismatch beyond the high end is an error,
below the low end is a warning".  Used only to compare the specified
behaviour with the implemented one. -/
inductive VoltVerdict where
  | errorHigh
  | warnLow
  | inRange
deriving DecidableEq, Repr

/-- Modelled from the spec: table-lookup voltage gate (see `VoltVerdict`). -/
def specVoltageVerdict (map : List (ℕ × KvRange)) (cells : ℕ) (kv : ℚ) :
    VoltVerdict :=
  match (map.find? (fun e => e.1 = cells)).map (fun e => e.2) with
  | some r =>
    if kv > r.max_kv then .errorHigh
    else if kv < r.min_kv then .warnLow
    else .inRange
  | none => .inRange

end Drone4Compat

/-! ## Bounded revision loop — `src/drone/scripts/prof_grade_test.py`

The loop's externals (`fuse_component_data`, the physics subprocess
behind `run_physics_simulation` — the `simulation/calc_twr.py` script is
not part of the repository sources — and the `optimize_specs` advisor)
are oracles in a `LoopEnv`, indexed by the revision number so that every
possible sequence of outcomes is covered.  BOM entries reuse
`Drone4Compat.Part`.  Timestamps (wall-clock reads) are omitted from
`RevisionRecord`: no decision depends on them.  The sourcing filter
`p['part_type'] != part_type` is modelled as a non-match for a part
lacking the key (parts built by fusion always carry `part_type`). -/

namespace DroneLoop

open Drone4Compat

/-- One entry of a shopping list (`part_type` is always indexed
directly, the query keys via `.get`). -/
structure ShoppingItem where
  part_type : String
  new_search_query : Option String
  search_query : Option String
deriving DecidableEq, Repr

/-- `target_item.get('new_search_query') or target_item.get('search_query')`
(`or` keeps the first truthy operand; an empty string is falsy). -/
def queryOf (item : ShoppingItem) : Option String :=
  match item.new_search_query with
  | some q => if q = "" then item.search_query else some q
  | none => item.search_query

/-- The physics report as consumed by the loop: only
`physics_report.get('twr', 0)` feeds a decision. -/
structure PhysicsReport where
  twr : Option ℚ
deriving DecidableEq, Repr

/-- One immutable audit entry of the revision history. -/
structure RevisionRecord where
  revision_id : ℕ
  bom_snapshot : List Part
  physics_snapshot : PhysicsReport
  status : String
deriving DecidableEq, Repr

/-- Oracles for the loop's external collaborators, indexed by the
revision number to permit arbitrary outcome sequences. -/
structure LoopEnv where
  fuse : ℕ → String → Option String → Option Part
  physics : ℕ → List Part → PhysicsReport
  optimize : ℕ → List Part → PhysicsReport → Option (List ShoppingItem)

/-- Ghost observation: why the loop stopped.  `budget` covers both forms
of exhaustion (`while` guard false and the `revision_count ==
MAX_REVISIONS` break); `advisorNone` is a falsy optimization plan,
`advisorEmpty` an empty `replacements` list. -/
inductive StopReason where
  | passed
  | budget
  | advisorNone
  | advisorEmpty
deriving DecidableEq, Repr

/-- Result of a loop run: final BOM, the append-only revision history,
the final `revision_count`, and the (ghost) stop reason. -/
structure LoopResult where
  bom : List Part
  revisions : List RevisionRecord
  count : ℕ
  stop : StopReason
deriving Repr

/-- The TWR pass threshold `1.5` of lines 121/126, written in
kernel-normal form (`norm_num` shows it equals `3/2`). -/
def twrThreshold : ℚ := Rat.mk' 3 2 (by norm_num) (by norm_num)

/-- Lines 100–104: remove any prior part of the category, append the
newly sourced one. -/
def replaceByCategory (bom : List Part) (pt : String) (newPart : Part) :
    List Part :=
  (bom.filter (fun p => p.part_type ≠ some pt)) ++ [newPart]

/-- One `target_item` of the sourcing phase: a failed fusion leaves the
BOM unchanged. -/
def sourceItem (env : LoopEnv) (revId : ℕ) (bom : List Part)
    (item : ShoppingItem) : List Part :=
  match env.fuse revId item.part_type (queryOf item) with
  | some newPart => replaceByCategory bom item.part_type newPart
  | none => bom

/-- The `for target_item in current_shopping_list` loop. -/
def sourcingPhase (env : LoopEnv) (revId : ℕ) (shopping : List ShoppingItem)
    (bom : List Part) : List Part :=
  shopping.foldl (sourceItem env revId) bom

/-- The `while revision_count < MAX_REVISIONS` body.  `fuel` is
`MAX_REVISIONS - revision_count`, so `fuel = 0` after an iteration is
exactly the `revision_count == MAX_REVISIONS` break. -/
def loopGo (env : LoopEnv) :
    ℕ → ℕ → List ShoppingItem → List Part → List RevisionRecord → LoopResult
  | 0, revCount, _, bom, recs => ⟨bom, recs, revCount, .budget⟩
  | fuel + 1, revCount, shopping, bom, recs =>
    let revId := revCount + 1
    let bom' := sourcingPhase env revId shopping bom
    let report := env.physics revId bom'
    let twr := report.twr.getD 0
    let status := if twr ≥ twrThreshold then "pass" else "fail"
    let recs' := recs ++ [⟨revId, bom', report, status⟩]
    if twr ≥ twrThreshold then ⟨bom', recs', revId, .passed⟩
    else if fuel = 0 then ⟨bom', recs', revId, .budget⟩
    else
      match env.optimize revId bom' report with
      | none => ⟨bom', recs', revId, .advisorNone⟩
      | some repl =>
        if repl.isEmpty then ⟨bom', recs', revId, .advisorEmpty⟩
        else loopGo env fuel revId repl bom' recs'

/-- The whole revision loop: starts from an empty BOM, the initial
shopping list, and `revision_count = 0`. -/
def runRevisionLoop (env : LoopEnv) (maxRevisions : ℕ)
    (initialShopping : List ShoppingItem) : LoopResult :=
  loopGo env maxRevisions 0 initialShopping [] []

end DroneLoop

/-! ## Candidate fusion & ranking — `src/drone_3/app/services/fusion_service.py`

External collaborators (`generate_vision_prompt`, `find_components`, the
scraper, `analyze_specs_multimodal`, and the two `library_service`
text-inference helpers, none of which live under the drone_3 sources)
are oracles in a `FusionEnv`.  A falsy vision result, or one whose
`error` key is truthy, is modelled as `none`. -/

namespace Drone3Fusion

/-- `DOMAIN_BLOCKLIST` from the source. -/
def DOMAIN_BLOCKLIST : List String :=
  ["reddit.com", "facebook.com", "youtube.com", "twitter.com",
   "instagram.com", "forum", "pinterest", "thingiverse", "mdpi.com",
   "oscarliang.com", "getfpv.com/learn", "blog", "news"]

/-- `GENERIC_TITLE_BLOCKLIST` from the source. -/
def GENERIC_TITLE_BLOCKLIST : List String :=
  ["collections", "products", "category", "browse", "shop",
   "rc model vehicles", "accessories", "parts"]

/-- One raw search result (`item.get('link')` / `item.get('title')`). -/
structure SearchItem where
  link : Option String
  title : Option String
deriving DecidableEq, Repr

/-- The scraper's output for one product page. -/
structure Scraped where
  price : Option PyVal
  images : List String
  structured_tables : String
  text : String
deriving DecidableEq, Repr

/-- One field of the multimodal vision result; the code only uses
entries that are dicts (`isinstance(data, dict)`). -/
inductive VisionEntry where
  | dict (value : Option PyVal) (confidence : ℚ)
  | other
deriving DecidableEq, Repr

/-- One surviving candidate, as returned by `process_single_candidate`. -/
structure Candidate where
  product_name : String
  price : ℚ
  source_url : String
  image_url : Option String
  engineering_data : List (String × PyVal)
  has_tables : Bool
deriving DecidableEq, Repr

/-- The composite part returned by `fuse_component_data`. -/
structure FusedPart where
  part_type : String
  product_name : String
  price : ℚ
  source_url : String
  engineering_specs : List (String × PyVal)
  reference_image : Option String
  data_source_method : PyVal
  alternatives_checked : ℕ
deriving DecidableEq, Repr

/-- Oracles for the fusion pipeline's external collaborators. -/
structure FusionEnv where
  genPrompt : String → Option String
  findComponents : String → ℕ → List SearchItem
  scrape : String → Option Scraped
  vision : String → List String → String → String →
    Option (List (String × VisionEntry))
  inferMotorMounting : String → Option PyVal
  extractPropDiameter : String → Option PyVal

/-- The price sanity floor `0.50` of line 58, written in kernel-normal
form (`norm_num` shows it equals `1/2`). -/
def priceFloor : ℚ := Rat.mk' 1 2 (by norm_num) (by norm_num)

/-- `validate_critical_specs(part_type, specs)`: per-category critical
keys, each tested for a truthy value. -/
def validate_critical_specs (part_type : String)
    (specs : List (String × PyVal)) : Bool :=
  if specs = [] then false
  else
    let pt := toLowerStr part_type
    if containsSub pt "motor" then
      (pyTruthy (alookup specs "kv_rating") || pyTruthy (alookup specs "kv")) &&
      (pyTruthy (alookup specs "mounting_mm") || pyTruthy (alookup specs "stator_size"))
    else if containsSub pt "frame" then
      pyTruthy (alookup specs "wheelbase_mm")
    else if containsSub pt "fc" || containsSub pt "flight" then
      (pyTruthy (alookup specs "mounting_mm") || pyTruthy (alookup specs "mounting_pattern_mm")) &&
      (pyTruthy (alookup specs "mcu") || pyTruthy (alookup specs "mcu_type"))
    else if containsSub pt "battery" then
      (pyTruthy (alookup specs "cell_count_s") || pyTruthy (alookup specs "voltage_v")) &&
      pyTruthy (alookup specs "capacity_mah")
    else if containsSub pt "esc" then
      pyTruthy (alookup specs "continuous_current_a") || pyTruthy (alookup specs "current_a")
    else if containsSub pt "prop" then
      pyTruthy (alookup specs "diameter_inch") || pyTruthy (alookup specs "diameter_mm")
    else true

/-- The accepted-field accumulation of the vision loop: dict entries
whose value is present and whose confidence clears the threshold. -/
def visionValidated (entries : List (String × VisionEntry)) (minConf : ℚ) :
    List (String × PyVal) :=
  entries.foldl (fun acc e =>
    match e.2 with
    | .dict (some v) conf => if conf ≥ minConf then dictInsert acc e.1 v else acc
    | _ => acc) []

/-- Steps 2–3 of `process_single_candidate`: multimodal extraction with
the confidence gate, the `source` tag, and the two deterministic
text-inference fallbacks — the candidate's final `engineering_specs`. -/
def extractedSpecs (env : FusionEnv) (pt : String) (promptObj : Option String)
    (minConf : ℚ) (title : String) (scraped : Scraped) :
    List (String × PyVal) :=
  let images := scraped.images
  let combined := scraped.structured_tables ++ "\n\n--- GENERAL DESCRIPTION ---\n"
    ++ strTake scraped.text 2000
  let validated : List (String × PyVal) :=
    match promptObj with
    | none => []
    | some prompt =>
      match env.vision combined images pt prompt with
      | none => []
      | some entries => visionValidated entries minConf
  let validated :=
    if validated = [] then validated
    else dictInsert validated "source" (.str "multimodal_fusion")
  let eng1 :=
    if containsSub (toLowerStr pt) "motor" ∧ alookup validated "mounting_mm" = none then
      match env.inferMotorMounting title with
      | some v =>
        if v.truthy then
          dictInsert (dictInsert validated "mounting_mm" v)
            "source" (.str "text_inference_fallback")
        else validated
      | none => validated
    else validated
  if containsSub (toLowerStr pt) "propeller" ∧ alookup eng1 "diameter_mm" = none then
    match env.extractPropDiameter title with
    | some v =>
      if v.truthy then
        dictInsert (dictInsert eng1 "diameter_mm" v)
          "source" (.str "text_inference_fallback")
      else eng1
    | none => eng1
  else eng1

/-- Step 4 of `process_single_candidate`: the critical-spec gate (lines
110–120) — the candidate dict is built only when validation passes. -/
def gateCandidate (pt title link : String) (price : ℚ) (scraped : Scraped)
    (eng2 : List (String × PyVal)) : Option Candidate :=
  if validate_critical_specs pt eng2 then
    some { product_name := title, price := price, source_url := link,
           image_url := scraped.images.head?, engineering_data := eng2,
           has_tables := scraped.structured_tables ≠ "" }
  else none

/-- `process_single_candidate`: the whole per-candidate pipeline,
from blocklists through price sanity, extraction, fallback inference and
the critical-spec gate. -/
def processSingleCandidate (env : FusionEnv) (pt : String)
    (promptObj : Option String) (minConf : ℚ) (item : SearchItem) :
    Option Candidate :=
  match item.link, item.title with
  | some link, some title =>
    if link = "" ∨ title = "" then none
    else if DOMAIN_BLOCKLIST.any (fun d => containsSub link d) then none
    else if GENERIC_TITLE_BLOCKLIST.any (fun w => containsSub (toLowerStr title) w) then none
    else
      match env.scrape link with
      | none => none
      | some scraped =>
        match scraped.price with
        | some (PyVal.num price) =>
          if price ≤ priceFloor then none
          else
            gateCandidate pt title link price scraped
              (extractedSpecs env pt promptObj minConf title scraped)
        | _ => none
  | _, _ => none

/-- Whether the extraction-source tag equals `"multimodal_fusion"`. -/
def sourceIsMultimodal (specs : List (String × PyVal)) : Bool :=
  match alookup specs "source" with
  | some (.str s) => s == "multimodal_fusion"
  | _ => false

/-- Whether the extraction-source tag contains `"text_inference"`. -/
def sourceIsTextInference (specs : List (String × PyVal)) : Bool :=
  match alookup specs "source" with
  | some (.str s) => containsSub s "text_inference"
  | _ => false

/-- Truthiness of the `image_url` field. -/
def imageTruthy : Option String → Bool
  | some s => s != ""
  | none => false

/-- `rank_candidate(c)`.  (A non-string `source` value would raise in the
`"text_inference" in ...` containment test; the code itself only ever
stores strings there, and the embedding scores such a value 0.) -/
def rank_candidate (c : Candidate) : ℕ :=
  (if sourceIsMultimodal c.engineering_data then 20 else 0) +
  (if sourceIsTextInference c.engineering_data then 5 else 0) +
  (if c.has_tables then 10 else 0) +
  (if imageTruthy c.image_url then 5 else 0) +
  c.engineering_data.length

/-- Stable descending insertion: the new element goes after every
element whose key is at least as large. -/
def insDesc {α : Type} (f : α → ℕ) (c : α) : List α → List α
  | [] => [c]
  | d :: ds => if f c ≤ f d then d :: insDesc f c ds else c :: d :: ds

/-- `valid_candidates.sort(key=rank_candidate, reverse=True)`: Python's
sort is stable, so elements with equal keys keep their first-seen order;
a left-to-right stable insertion realises exactly that. -/
def pySortDesc {α : Type} (f : α → ℕ) (l : List α) : List α :=
  l.foldl (fun acc c => insDesc f c acc) []

/-- The first element of maximal key (earlier elements win ties);
proved below to be the head of `pySortDesc`. -/
def firstMaxEl {α : Type} (f : α → ℕ) : List α → Option α
  | [] => none
  | c :: cs =>
    match firstMaxEl f cs with
    | none => some c
    | some b => if f b > f c then some b else some c

/-- The list of candidates that survive `process_single_candidate`
(`valid_candidates` in the source), in first-seen order. -/
def fuseSurvivors (env : FusionEnv) (pt : String) (prompt : String)
    (minConf : ℚ) (results : List SearchItem) : List Candidate :=
  results.filterMap (processSingleCandidate env pt (some prompt) minConf)

/-- The `composite_part` dict built from the best candidate. -/
def compositeOf (pt : String) (valid : List Candidate) (best : Candidate) :
    FusedPart :=
  { part_type := pt, product_name := best.product_name, price := best.price,
    source_url := best.source_url, engineering_specs := best.engineering_data,
    reference_image := best.image_url,
    data_source_method :=
      (alookup best.engineering_data "source").getD (.str "raw_search"),
    alternatives_checked := valid.length }

/-- `fuse_component_data(part_type, search_query, search_limit,
min_confidence)`. -/
def fuse_component_data (env : FusionEnv) (pt query : String)
    (searchLimit : ℕ) (minConf : ℚ) : Option FusedPart :=
  match env.genPrompt pt with
  | none => none
  | some prompt =>
    let results := env.findComponents query searchLimit
    if results = [] then none
    else
      let valid := fuseSurvivors env pt prompt minConf results
      match valid with
      | [] => none
      | c :: cs =>
        match pySortDesc rank_candidate (c :: cs) with
        | [] => none            -- unreachable: sorting preserves length
        | best :: _ => some (compositeOf pt valid best)

/-- Modelled from the spec: "+large weight for multimodal-sourced specs,
+medium for structured-table presence, +small for having a reference
image, +1 per extracted field", instantiated at the implementation's
weight constants (20/10/5).  It differs from `rank_candidate` in having
no term for specs sourced by the deterministic text-inference fallback. -/
def specClaimScore (c : Candidate) : ℕ :=
  (if sourceIsMultimodal c.engineering_data then 20 else 0) +
  (if c.has_tables then 10 else 0) +
  (if imageTruthy c.image_url then 5 else 0) +
  c.engineering_data.length

end Drone3Fusion

/-! ## Concrete inputs used by witnesses and counterexamples -/

namespace Examples

open Drone4Compat DroneLoop Drone3Fusion Drone2Phys

/-- A 6S battery record (cell count given as the string `"6S"`). -/
def batt6S : Part := ⟨some "Battery", some "Tattu 6S", [("cell_count_s", .str "6S")]⟩

/-- A 2500KV motor record. -/
def motor2500 : Part := ⟨some "Motors", some "XING 2500KV", [("kv_rating", .str "2500KV")]⟩

/-- A 1700KV motor record. -/
def motor1700 : Part := ⟨some "Motors", some "M1700", [("kv_rating", .num 1700)]⟩

/-- A 4S battery record. -/
def batt4S : Part := ⟨some "Battery", some "B4S", [("cell_count_s", .str "4S")]⟩

/-- A 3000KV motor record. -/
def motor3000 : Part := ⟨some "Motors", some "M3000", [("kv_rating", .num 3000)]⟩

/-- A 5S battery record. -/
def batt5S : Part := ⟨some "Battery", some "B5S", [("cell_count_s", .str "5S")]⟩

/-- The 6S/2500KV BOM of the spec's voltage-gate fixture. -/
def bom6s2500 : List Part := [batt6S, motor2500]

/-- The 6S/1700KV BOM of the spec's voltage-gate fixture. -/
def bom6s1700 : List Part := [batt6S, motor1700]

/-- A 4S battery with 3000KV motors: beyond the `VOLTAGE_MAP` high end
for 4S (2900), yet not matched by any hard-coded branch. -/
def bom4s3000 : List Part := [batt4S, motor3000]

/-- A component record lacking the `part_type` key. -/
def noPartTypeRec : Part := ⟨none, some "Mystery Widget", []⟩

/-- Loop environment for the C1 counterexample: sourcing yields the
6S/2500KV pair and the (external) physics report claims TWR 2. -/
def envC1 : LoopEnv :=
  { fuse := fun _ pt _ =>
      if pt = "Battery" then some batt6S
      else if pt = "Motors" then some motor2500
      else none
    physics := fun _ _ => ⟨some 2⟩
    optimize := fun _ _ _ => none }

/-- Shopping list sourcing a battery and motors. -/
def shopC1 : List ShoppingItem :=
  [⟨"Battery", none, none⟩, ⟨"Motors", none, none⟩]

/-- Loop environment whose advisor always replies with an empty
replacement list and whose physics never passes. -/
def envAdvEmpty : LoopEnv :=
  { fuse := fun _ _ _ => none
    physics := fun _ _ => ⟨some 1⟩
    optimize := fun _ _ _ => some [] }

/-- A frame part for the C7 witness. -/
def frameKitPart : Part := ⟨some "Frame_Kit", some "Source One V5", [("wheelbase_mm", .num 225)]⟩

/-- A drone_2 BOM item with an explicit weight. -/
def battItem : Item := ⟨"Battery", "Tattu", [("weight_g", .num 180)]⟩

/-- A drone_2 motor item (weight from specs, quantity 4). -/
def motorItem : Item := ⟨"Motors", "2207 1750KV", [("weight_g", .num 30), ("kv", .num 1750)]⟩

/-- A drone_2 item of a category with no fallback weight and no specs. -/
def gpsItem : Item := ⟨"GPS", "M10", []⟩

/-- Fixture BOM for the physics witnesses. -/
def bomPhys : List Item := [motorItem, battItem, gpsItem]

/-- First raw search result of the C9 environment. -/
def itemA : SearchItem := ⟨some "https://shopA.example/m1", some "AlphaMotor 2207"⟩

/-- Second raw search result of the C9 environment. -/
def itemB : SearchItem := ⟨some "https://shopB.example/m2", some "BetaMotor 2207"⟩

/-- Fusion environment for the ranking counterexample.  Candidate A is
fully multimodal-extracted (no tables, no image); candidate B gets its
mounting pattern from the text-inference fallback, has a structured
table, an image, and more extracted fields. -/
def envC9 : FusionEnv :=
  { genPrompt := fun _ => some "PROMPT"
    findComponents := fun _ _ => [itemA, itemB]
    scrape := fun link =>
      if link = "https://shopA.example/m1" then
        some ⟨some (.num 30), [], "", "pageA"⟩
      else if link = "https://shopB.example/m2" then
        some ⟨some (.num 25), ["https://img.example/b.jpg"], "<table>specs</table>", "pageB"⟩
      else none
    vision := fun combined _ _ _ =>
      if containsSub combined "pageA" then
        some [("kv_rating", .dict (some (.num 1750)) 1),
              ("mounting_mm", .dict (some (.num 16)) 1)]
      else if containsSub combined "pageB" then
        some [("kv_rating", .dict (some (.num 1800)) 1),
              ("stator_diameter", .dict (some (.num 22)) 1),
              ("stator_height", .dict (some (.num 7)) 1),
              ("shaft_mm", .dict (some (.num 4)) 1)]
      else none
    inferMotorMounting := fun title =>
      if containsSub title "BetaMotor" then some (.num 16) else none
    extractPropDiameter := fun _ => none }

/-- The processed candidate A (computed by `process_single_candidate`). -/
def candA : Candidate :=
  { product_name := "AlphaMotor 2207", price := 30,
    source_url := "https://shopA.example/m1", image_url := none,
    engineering_data := [("kv_rating", .num 1750), ("mounting_mm", .num 16),
                         ("source", .str "multimodal_fusion")],
    has_tables := false }

/-- The processed candidate B (computed by `process_single_candidate`). -/
def candB : Candidate :=
  { product_name := "BetaMotor 2207", price := 25,
    source_url := "https://shopB.example/m2",
    image_url := some "https://img.example/b.jpg",
    engineering_data := [("kv_rating", .num 1800), ("stator_diameter", .num 22),
                         ("stator_height", .num 7), ("shaft_mm", .num 4),
                         ("source", .str "text_inference_fallback"),
                         ("mounting_mm", .num 16)],
    has_tables := true }

/-- Fusion environment in which all scraping fails, so every candidate
is filtered out. -/
def envAllFiltered : FusionEnv :=
  { genPrompt := fun _ => some "PROMPT"
    findComponents := fun _ _ => [⟨none, some "no link"⟩, itemA]
    scrape := fun _ => none
    vision := fun _ _ _ _ => none
    inferMotorMounting := fun _ => none
    extractPropDiameter := fun _ => none }

end Examples

namespace DroneLoop

/-- Number of BOM entries of one category. -/
def countCategory (bom : List Drone4Compat.Part) (pt : String) : ℕ :=
  (bom.filter (fun p => p.part_type = some pt)).length

/-- `twrThreshold` is the rational `3/2` (= 1.5). -/
lemma twrThreshold_eq : twrThreshold = 3/2 := by
  rw [twrThreshold, Rat.mk'_eq_divInt, Rat.divInt_eq_div]; norm_num

end DroneLoop

section FilterHelpers

open Drone4Compat

lemma filter_eq_of_filter_ne (l : List Part) (pt : String) :
    (l.filter (fun p => p.part_type ≠ some pt)).filter
      (fun p => p.part_type = some pt) = [] := by
  induction l with
  | nil => rfl
  | cons x xs ih => by_cases hx : x.part_type = some pt <;> simp [hx, ih]

lemma filter_other_of_filter_ne (l : List Part) (pt pt' : String)
    (hne : pt' ≠ pt) :
    (l.filter (fun p => p.part_type ≠ some pt)).filter
      (fun p => p.part_type = some pt') =
    l.filter (fun p => p.part_type = some pt') := by
  induction l with
  | nil => rfl
  | cons x xs ih =>
    by_cases hx : x.part_type = some pt
    · have hx2 : ¬ x.part_type = some pt' := by
        rw [hx]; intro hc; exact hne (Option.some.inj hc).symm
      simp only [List.filter_cons]
      rw [if_neg (by simp [hx]), if_neg (by simp [hx2])]
      exact ih
    · by_cases hx2 : x.part_type = some pt'
      · simp only [List.filter_cons]
        rw [if_pos (by simp [hx])]
        simp only [List.filter_cons]
        rw [if_pos (by simp [hx2]), if_pos (by simp [hx2]), ih]
      · simp only [List.filter_cons]
        rw [if_pos (by simp [hx])]
        simp only [List.filter_cons]
        rw [if_neg (by simp [hx2]), if_neg (by simp [hx2])]
        exact ih

lemma filter_ne_idem (l : List Part) (pt : String) :
    ((l.filter (fun p => p.part_type ≠ some pt)).filter
      (fun p => p.part_type ≠ some pt)) =
    l.filter (fun p => p.part_type ≠ some pt) := by
  induction l with
  | nil => rfl
  | cons x xs ih => by_cases hx : x.part_type = some pt <;> simp [hx, ih]

end FilterHelpers

section SumHelpers

lemma foldl_add_eq_sum {α : Type} (f : α → ℚ) (l : List α) (a : ℚ) :
    l.foldl (fun t i => t + f i) a = a + (l.map f).sum := by
  induction l generalizing a with
  | nil => simp
  | cons x xs ih => simp [ih, add_assoc]

end SumHelpers

/-! ## C3 — mass estimator -/

/-- **C3.** For every BOM, the drone_2 all-up-weight equals the spec's
formula `Σ(unit weight × category quantity) × 1.10` — with quantity 4 for
motor/propeller categories and 1 otherwise, and the documented
per-category fallback weight substituted when the `weight_g` spec yields
no usable number — and the estimator is deterministic (a pure function
of the BOM, so two calls agree). -/
theorem C3_mass_formula (bom : List Drone2Phys.Item) :
    Drone2Phys.calculate_auw bom = Drone2Phys.specTotalMass bom ∧
    Drone2Phys.calculate_auw bom = Drone2Phys.calculate_auw bom := by
  refine ⟨?_, rfl⟩
  unfold Drone2Phys.calculate_auw Drone2Phys.specTotalMass
  rw [foldl_add_eq_sum (fun item =>
    Drone2Phys.unitWeight item * Drone2Phys.qtyOf (toLowerStr item.category))]
  rw [zero_add]
  congr 2

/-! ## C4 — thrust-to-weight ratio and hover throttle -/

/-- **C4.** For every BOM with positive total mass, the computed TWR is
`(4 × per-motor thrust) / total mass` (and the 500 g / 300 g fixture of
the spec gives TWR `12/5 = 2.4`), and the hover throttle fraction is
`1/TWR` when `TWR > 0` and the fixed fallback `0.5` otherwise. -/
theorem C4_twr_hover (bom : List Drone2Phys.Item)
    (h : 0 < Drone2Phys.calculate_auw bom) :
    (Drone2Phys.physicsDynamics bom).1 =
      4 * Drone2Phys.estimate_max_thrust (Drone2Phys.findPart bom "Motors") /
        Drone2Phys.calculate_auw bom ∧
    (0 < (Drone2Phys.physicsDynamics bom).1 →
      (Drone2Phys.physicsDynamics bom).2 = 1 / (Drone2Phys.physicsDynamics bom).1) ∧
    ((Drone2Phys.physicsDynamics bom).1 ≤ 0 →
      (Drone2Phys.physicsDynamics bom).2 = 1/2) ∧
    Drone2Phys.twrOf (4 * 300) 500 = 12/5 := by
  refine ⟨?_, ?_, ?_, by norm_num [Drone2Phys.twrOf]⟩
  · simp only [Drone2Phys.physicsDynamics, Drone2Phys.twrOf, if_pos h]
    ring
  · intro hp
    simp only [Drone2Phys.physicsDynamics, Drone2Phys.hoverOf] at hp ⊢
    rw [if_pos hp]
  · intro hp
    simp only [Drone2Phys.physicsDynamics, Drone2Phys.hoverOf] at hp ⊢
    rw [if_neg (by linarith)]

/-- The fixture BOM's all-up weight: `(30·4 + 180 + 0) × 1.1 = 330`. -/
lemma auw_bomPhys : Drone2Phys.calculate_auw Examples.bomPhys = 330 := by
  have h1 : Drone2Phys.unitWeight Examples.motorItem = 30 := by decide
  have h2 : Drone2Phys.unitWeight Examples.battItem = 180 := by decide
  have h3 : Drone2Phys.unitWeight Examples.gpsItem = 0 := by decide
  have q1 : Drone2Phys.qtyOf (toLowerStr Examples.motorItem.category) = 4 := by decide
  have q2 : Drone2Phys.qtyOf (toLowerStr Examples.battItem.category) = 1 := by decide
  have q3 : Drone2Phys.qtyOf (toLowerStr Examples.gpsItem.category) = 1 := by decide
  simp only [Drone2Phys.calculate_auw, Examples.bomPhys, List.foldl_cons,
    List.foldl_nil, h1, h2, h3, q1, q2, q3]
  norm_num

/-- Witness for C4 at a concrete BOM of mass 330 g. -/
theorem C4_twr_hover_witness :
    0 < Drone2Phys.calculate_auw Examples.bomPhys ∧
    ((Drone2Phys.physicsDynamics Examples.bomPhys).1 =
      4 * Drone2Phys.estimate_max_thrust
        (Drone2Phys.findPart Examples.bomPhys "Motors") /
        Drone2Phys.calculate_auw Examples.bomPhys ∧
    (0 < (Drone2Phys.physicsDynamics Examples.bomPhys).1 →
      (Drone2Phys.physicsDynamics Examples.bomPhys).2 =
        1 / (Drone2Phys.physicsDynamics Examples.bomPhys).1) ∧
    ((Drone2Phys.physicsDynamics Examples.bomPhys).1 ≤ 0 →
      (Drone2Phys.physicsDynamics Examples.bomPhys).2 = 1/2) ∧
    Drone2Phys.twrOf (4 * 300) 500 = 12/5) :=
  ⟨by rw [auw_bomPhys]; norm_num,
   C4_twr_hover Examples.bomPhys (by rw [auw_bomPhys]; norm_num)⟩

/-! ## C6 — validator robustness (code bug) -/

/-- **C6.** Evaluating the validator at a component record lacking the
`part_type` key: `parts = {p['part_type']: p for p in bom}` raises
`KeyError`, although the claim (and the adjacent comment "Extract
Components safely") promise a report instead of an exception. -/
theorem C6_keyerror_on_missing_part_type :
    Drone4Compat.validate_build Drone4Compat.defaultService
      [Examples.noPartTypeRec] = .error .keyError := rfl

/-! ## C7 — replace-by-category -/

/-- **C7.** A sourcing step leaves exactly one component of the sourced
category (the new part replaces any prior one of that category), leaves
every other category's count unchanged, and sourcing the same category a
second time with the same verified component leaves the BOM unchanged —
no duplicate entries arise. -/
theorem C7_replace_by_category (bom : List Drone4Compat.Part) (pt : String)
    (part : Drone4Compat.Part) (h : part.part_type = some pt) :
    DroneLoop.countCategory (DroneLoop.replaceByCategory bom pt part) pt = 1 ∧
    (∀ pt', pt' ≠ pt →
      DroneLoop.countCategory (DroneLoop.replaceByCategory bom pt part) pt' =
        DroneLoop.countCategory bom pt') ∧
    DroneLoop.replaceByCategory (DroneLoop.replaceByCategory bom pt part) pt part =
      DroneLoop.replaceByCategory bom pt part := by
  refine ⟨?_, ?_, ?_⟩
  · simp [DroneLoop.countCategory, DroneLoop.replaceByCategory,
      List.filter_append, filter_eq_of_filter_ne, h]
  · intro pt' hne
    have hpart : ¬ part.part_type = some pt' := by
      rw [h]; intro hc; exact hne (Option.some.inj hc).symm
    simp only [DroneLoop.countCategory, DroneLoop.replaceByCategory,
      List.filter_append]
    rw [filter_other_of_filter_ne bom pt pt' hne]
    simp [hpart]
  · simp only [DroneLoop.replaceByCategory, List.filter_append]
    rw [filter_ne_idem]
    simp [h]

/-- Witness for C7: sourcing `Frame_Kit` twice onto the 6S/2500KV BOM. -/
theorem C7_replace_by_category_witness :
    Examples.frameKitPart.part_type = some "Frame_Kit" ∧
    (DroneLoop.countCategory
      (DroneLoop.replaceByCategory Examples.bom6s2500 "Frame_Kit"
        Examples.frameKitPart) "Frame_Kit" = 1 ∧
    (∀ pt', pt' ≠ "Frame_Kit" →
      DroneLoop.countCategory
        (DroneLoop.replaceByCategory Examples.bom6s2500 "Frame_Kit"
          Examples.frameKitPart) pt' =
        DroneLoop.countCategory Examples.bom6s2500 pt') ∧
    DroneLoop.replaceByCategory
      (DroneLoop.replaceByCategory Examples.bom6s2500 "Frame_Kit"
        Examples.frameKitPart) "Frame_Kit" Examples.frameKitPart =
      DroneLoop.replaceByCategory Examples.bom6s2500 "Frame_Kit"
        Examples.frameKitPart) :=
  ⟨rfl, C7_replace_by_category Examples.bom6s2500 "Frame_Kit"
    Examples.frameKitPart rfl⟩

/-! ## Revision-loop invariants -/

namespace DroneLoop

/-- The recorded status is `"pass"` exactly when the reported TWR clears
the threshold. -/
lemma status_iff (twr : ℚ) :
    ((if twr ≥ twrThreshold then "pass" else "fail") = "pass") ↔
      twrThreshold ≤ twr := by
  split_ifs with h
  · simpa using h
  · constructor
    · intro hc; exact absurd hc (by decide)
    · intro hc; exact absurd hc h

/-- Combined induction invariant of the `while` loop: one revision
record per iteration, the revision counter bounded by the fuel, every
record's status determined by its reported TWR, and an advisor-caused
stop occurring strictly before budget exhaustion with the advisor's
reply falsy or empty. -/
lemma loopGo_spec (env : LoopEnv) :
    ∀ (fuel revCount : ℕ) (shopping : List ShoppingItem)
      (bom : List Drone4Compat.Part) (recs : List RevisionRecord),
      ((loopGo env fuel revCount shopping bom recs).revisions.length + revCount =
        (loopGo env fuel revCount shopping bom recs).count + recs.length) ∧
      revCount ≤ (loopGo env fuel revCount shopping bom recs).count ∧
      (loopGo env fuel revCount shopping bom recs).count ≤ revCount + fuel ∧
      ((∀ x ∈ recs, (x.status = "pass" ↔
          twrThreshold ≤ x.physics_snapshot.twr.getD 0)) →
        ∀ x ∈ (loopGo env fuel revCount shopping bom recs).revisions,
          (x.status = "pass" ↔ twrThreshold ≤ x.physics_snapshot.twr.getD 0)) ∧
      ((loopGo env fuel revCount shopping bom recs).stop = .advisorNone →
        env.optimize (loopGo env fuel revCount shopping bom recs).count
          (loopGo env fuel revCount shopping bom recs).bom
          (env.physics (loopGo env fuel revCount shopping bom recs).count
            (loopGo env fuel revCount shopping bom recs).bom) = none ∧
        (loopGo env fuel revCount shopping bom recs).count < revCount + fuel) ∧
      ((loopGo env fuel revCount shopping bom recs).stop = .advisorEmpty →
        env.optimize (loopGo env fuel revCount shopping bom recs).count
          (loopGo env fuel revCount shopping bom recs).bom
          (env.physics (loopGo env fuel revCount shopping bom recs).count
            (loopGo env fuel revCount shopping bom recs).bom) = some [] ∧
        (loopGo env fuel revCount shopping bom recs).count < revCount + fuel) := by
  intro fuel
  induction fuel with
  | zero =>
    intro revCount shopping bom recs
    refine ⟨by simp [loopGo]; omega, by simp [loopGo], by simp [loopGo],
      ?_, ?_, ?_⟩
    · intro hrecs
      simp only [loopGo]
      exact hrecs
    · intro hstop; simp [loopGo] at hstop
    · intro hstop; simp [loopGo] at hstop
  | succ n ih =>
    intro revCount shopping bom recs
    set bom' := sourcingPhase env (revCount + 1) shopping bom with hbom
    set report := env.physics (revCount + 1) bom' with hrep
    set twr := report.twr.getD 0 with htwr
    set x : RevisionRecord :=
      ⟨revCount + 1, bom', report,
        if twr ≥ twrThreshold then "pass" else "fail"⟩ with hx
    have hmemx : ∀ (hr : ∀ y ∈ recs,
        (y.status = "pass" ↔ twrThreshold ≤ y.physics_snapshot.twr.getD 0)),
        ∀ y ∈ recs ++ [x],
          (y.status = "pass" ↔ twrThreshold ≤ y.physics_snapshot.twr.getD 0) := by
      intro hr y hy
      rcases List.mem_append.mp hy with hmem | hmem
      · exact hr y hmem
      · rcases List.mem_singleton.mp hmem with rfl
        exact status_iff twr
    have hlen : (recs ++ [x]).length = recs.length + 1 := by simp
    have hunf : loopGo env (n + 1) revCount shopping bom recs =
        (if twr ≥ twrThreshold then
          ⟨bom', recs ++ [x], revCount + 1, .passed⟩
        else if n = 0 then
          ⟨bom', recs ++ [x], revCount + 1, .budget⟩
        else
          match env.optimize (revCount + 1) bom' report with
          | none => ⟨bom', recs ++ [x], revCount + 1, .advisorNone⟩
          | some repl =>
            if repl.isEmpty then ⟨bom', recs ++ [x], revCount + 1, .advisorEmpty⟩
            else loopGo env n (revCount + 1) repl bom' (recs ++ [x])) := rfl
    rw [hunf]
    split_ifs with h1 h2
    · refine ⟨?_, ?_, ?_, ?_, ?_, ?_⟩
      · dsimp only; omega
      · dsimp only; omega
      · dsimp only; omega
      · intro hrecs y hy; exact hmemx hrecs y hy
      · intro hstop; simp at hstop
      · intro hstop; simp at hstop
    · refine ⟨?_, ?_, ?_, ?_, ?_, ?_⟩
      · dsimp only; omega
      · dsimp only; omega
      · dsimp only; omega
      · intro hrecs y hy; exact hmemx hrecs y hy
      · intro hstop; simp at hstop
      · intro hstop; simp at hstop
    · cases hopt : env.optimize (revCount + 1) bom' report with
      | none =>
        dsimp only
        refine ⟨?_, ?_, ?_, ?_, ?_, ?_⟩
        · omega
        · omega
        · omega
        · intro hrecs y hy; exact hmemx hrecs y hy
        · intro _; exact ⟨hopt, by omega⟩
        · intro hstop; simp at hstop
      | some repl =>
        dsimp only
        by_cases hrepl : repl.isEmpty = true
        · rw [if_pos hrepl]
          dsimp only
          have hre : repl = [] := by simpa using hrepl
          refine ⟨?_, ?_, ?_, ?_, ?_, ?_⟩
          · omega
          · omega
          · omega
          · intro hrecs y hy; exact hmemx hrecs y hy
          · intro hstop; simp at hstop
          · intro _; exact ⟨hre ▸ hopt, by omega⟩
        · rw [if_neg hrepl]
          have hih := ih (revCount + 1) repl bom' (recs ++ [x])
          refine ⟨?_, ?_, ?_, ?_, ?_, ?_⟩
          · have h' := hih.1; omega
          · have h' := hih.2.1; omega
          · have h' := hih.2.2.1; omega
          · intro hrecs
            exact hih.2.2.2.1 (hmemx hrecs)
          · intro hstop
            obtain ⟨ho, hc⟩ := hih.2.2.2.2.1 hstop
            exact ⟨ho, by omega⟩
          · intro hstop
            obtain ⟨ho, hc⟩ := hih.2.2.2.2.2 hstop
            exact ⟨ho, by omega⟩

end DroneLoop

/-! ## C1 — the revision pass decision -/

/-- **C1** (counterexample to the claim as stated).  A concrete run of
the revision loop: sourcing yields the 6S/2500KV BOM and the external
physics report claims TWR 2, so the single revision is recorded with
status `"pass"` — yet the Compatibility Validator rejects that very BOM
(voltage mismatch).  Since no conjunct of "TWR ≥ threshold AND valid AND
no collision" may fail for a recorded pass, this refutes the claim. -/
theorem C1_counterexample :
    (DroneLoop.runRevisionLoop Examples.envC1 3 Examples.shopC1).revisions =
      [⟨1, [Examples.batt6S, Examples.motor2500], ⟨some 2⟩, "pass"⟩] ∧
    Drone4Compat.validate_build Drone4Compat.defaultService
      [Examples.batt6S, Examples.motor2500] =
      .ok ⟨false, [Drone4Compat.voltErrMsg 2500], []⟩ :=
  ⟨rfl, rfl⟩

/-- **C1** (amended).  In every run of the revision loop, a revision is
recorded with status `"pass"` exactly when the physics report's TWR is
at least the configured threshold `1.5`; the loop consults neither the
Compatibility Validator nor a collision detector. -/
theorem C1_pass_iff_twr (env : DroneLoop.LoopEnv) (N : ℕ)
    (shopping : List DroneLoop.ShoppingItem) :
    ∀ x ∈ (DroneLoop.runRevisionLoop env N shopping).revisions,
      (x.status = "pass" ↔ (3/2 : ℚ) ≤ x.physics_snapshot.twr.getD 0) := by
  intro x hx
  have h := (DroneLoop.loopGo_spec env N 0 shopping [] []).2.2.2.1
    (by intro y hy; exact absurd hy (List.not_mem_nil y)) x hx
  rwa [DroneLoop.twrThreshold_eq] at h

/-- Witness for C1 (amended) at the concrete run of `C1_counterexample`. -/
theorem C1_pass_iff_twr_witness :
    (⟨1, [Examples.batt6S, Examples.motor2500], ⟨some 2⟩, "pass"⟩ :
        DroneLoop.RevisionRecord) ∈
      (DroneLoop.runRevisionLoop Examples.envC1 3 Examples.shopC1).revisions ∧
    ((⟨1, [Examples.batt6S, Examples.motor2500], ⟨some 2⟩, "pass"⟩ :
        DroneLoop.RevisionRecord).status = "pass" ↔
      (3/2 : ℚ) ≤ (⟨1, [Examples.batt6S, Examples.motor2500], ⟨some 2⟩, "pass"⟩ :
        DroneLoop.RevisionRecord).physics_snapshot.twr.getD 0) :=
  ⟨List.mem_singleton_self _,
   C1_pass_iff_twr Examples.envC1 3 Examples.shopC1 _ (List.mem_singleton_self _)⟩

/-! ## C2 — loop bounds and early termination -/

/-- **C2.** For every `max_revisions = N` and every sequence of
sourcing/physics/advisor outcomes, the loop appends exactly one
`RevisionRecord` per iteration executed, runs at most `N` iterations
(and terminates — it is a total function of the environment), and an
absent (`advisorNone`) or empty (`advisorEmpty`) replacement list from
the Advisor stops it early — strictly before the budget is exhausted —
freezing the current BOM just as budget exhaustion does. -/
theorem C2_loop_bounds (env : DroneLoop.LoopEnv) (N : ℕ)
    (shopping : List DroneLoop.ShoppingItem) (r : DroneLoop.LoopResult)
    (hr : r = DroneLoop.runRevisionLoop env N shopping) :
    r.revisions.length = r.count ∧
    r.count ≤ N ∧
    ((r.stop = .advisorNone ∨ r.stop = .advisorEmpty) → r.count < N) ∧
    (r.stop = .advisorNone →
      env.optimize r.count r.bom (env.physics r.count r.bom) = none) ∧
    (r.stop = .advisorEmpty →
      env.optimize r.count r.bom (env.physics r.count r.bom) = some []) := by
  subst hr
  simp only [DroneLoop.runRevisionLoop]
  obtain ⟨h1, h2, h3, _, h5, h6⟩ := DroneLoop.loopGo_spec env N 0 shopping [] []
  simp only [List.length_nil, Nat.add_zero, Nat.zero_add] at h1 h3 h5 h6
  refine ⟨by omega, by omega, ?_, fun hs => (h5 hs).1, fun hs => (h6 hs).1⟩
  rintro (hs | hs)
  · exact (h5 hs).2
  · exact (h6 hs).2

/-- Witness for C2: an environment whose advisor always replies with an
empty replacement list stops after one of three budgeted revisions. -/
theorem C2_loop_bounds_witness :
    (DroneLoop.runRevisionLoop Examples.envAdvEmpty 3 []).revisions.length =
      (DroneLoop.runRevisionLoop Examples.envAdvEmpty 3 []).count ∧
    (DroneLoop.runRevisionLoop Examples.envAdvEmpty 3 []).count < 3 ∧
    Examples.envAdvEmpty.optimize
      (DroneLoop.runRevisionLoop Examples.envAdvEmpty 3 []).count
      (DroneLoop.runRevisionLoop Examples.envAdvEmpty 3 []).bom
      (Examples.envAdvEmpty.physics
        (DroneLoop.runRevisionLoop Examples.envAdvEmpty 3 []).count
        (DroneLoop.runRevisionLoop Examples.envAdvEmpty 3 []).bom) = some [] :=
  ⟨(C2_loop_bounds Examples.envAdvEmpty 3 [] _ rfl).1,
   (C2_loop_bounds Examples.envAdvEmpty 3 [] _ rfl).2.2.1 (Or.inr rfl),
   (C2_loop_bounds Examples.envAdvEmpty 3 [] _ rfl).2.2.2.2 rfl⟩

/-! ## Substring facts for the voltage-mismatch message -/

section SubstringHelpers

lemma isPrefixL_append (p l l' : List Char) (h : isPrefixL p l = true) :
    isPrefixL p (l ++ l') = true := by
  induction p generalizing l with
  | nil => rfl
  | cons c cs ih =>
    cases l with
    | nil => exact absurd h (by simp [isPrefixL])
    | cons d ds =>
      simp only [isPrefixL, Bool.and_eq_true] at h
      simp only [List.cons_append, isPrefixL, Bool.and_eq_true]
      exact ⟨h.1, ih ds h.2⟩

lemma hasInfixL_append_left (p l l' : List Char) (h : hasInfixL p l = true) :
    hasInfixL p (l ++ l') = true := by
  induction l with
  | nil =>
    simp only [hasInfixL] at h
    have hp : p = [] := by
      cases p with
      | nil => rfl
      | cons c cs => exact absurd h (by simp [isPrefixL])
    subst hp
    cases l' with
    | nil => rfl
    | cons d ds => simp [hasInfixL, isPrefixL]
  | cons c cs ih =>
    simp only [hasInfixL, Bool.or_eq_true] at h
    rcases h with h | h
    · simp only [List.cons_append, hasInfixL, Bool.or_eq_true]
      exact Or.inl (isPrefixL_append p (c :: cs) l' h)
    · simp only [List.cons_append, hasInfixL, Bool.or_eq_true]
      exact Or.inr (ih h)

/-- Every voltage-mismatch error text mentions "Voltage Mismatch". -/
lemma voltErrMsg_mentions (kv : ℚ) :
    containsSub (Drone4Compat.voltErrMsg kv) "Voltage Mismatch" = true := by
  unfold Drone4Compat.voltErrMsg containsSub
  rw [String.data_append, String.data_append]
  rw [List.append_assoc]
  exact hasInfixL_append_left _ _ _ (by decide)

end SubstringHelpers

/-! ## Voltage-gate characterization -/

namespace Drone4Compat

/-- Evaluation of CHECK A once both raw values parse. -/
lemma checkVoltage_eq (b m : Part) (cells kv : ℚ)
    (hc : parseCells (cellsRawOf b) = some cells)
    (hk : parseKv (kvRawOf m) = some kv) :
    checkVoltage b m =
      (if cells > 0 ∧ kv > 0 then
        if cells ≥ 6 ∧ kv > 2150 then ([voltErrMsg kv], [])
        else if cells ≤ 4 ∧ kv < 2000 then ([], [underpoweredMsg kv])
        else ([], [])
      else ([], [])) := by
  unfold checkVoltage
  rw [hc, hk]

/-- CHECK A is skipped when either raw value fails to parse. -/
lemma checkVoltage_skip (b m : Part)
    (h : parseCells (cellsRawOf b) = none ∨ parseKv (kvRawOf m) = none) :
    checkVoltage b m = ([], []) := by
  unfold checkVoltage
  rcases hc : parseCells (cellsRawOf b) with _ | c
  · rcases hk : parseKv (kvRawOf m) with _ | k <;> norm_num
  · rcases hk : parseKv (kvRawOf m) with _ | k
    · norm_num
    · rcases h with h' | h'
      · rw [hc] at h'; cases h'
      · rw [hk] at h'; cases h'

end Drone4Compat

/-! ## C5 — the voltage gate -/

/-- **C5** (counterexample to the claim as stated).  A 4S battery with
3000KV motors: both values parse, and the `VOLTAGE_MAP` table says 3000
exceeds the 4S high end of 2900, so the claimed table-driven gate must
emit an error — but the validator returns a fully valid report, because
its hard-coded branches only flag `cells ≥ 6 ∧ kv > 2150`. -/
theorem C5_counterexample :
    Drone4Compat.parseCells (Drone4Compat.cellsRawOf Examples.batt4S) = some 4 ∧
    Drone4Compat.parseKv (Drone4Compat.kvRawOf Examples.motor3000) = some 3000 ∧
    Drone4Compat.specVoltageVerdict Drone4Compat.defaultService.VOLTAGE_MAP 4 3000 =
      .errorHigh ∧
    Drone4Compat.validate_build Drone4Compat.defaultService Examples.bom4s3000 =
      .ok ⟨true, [], []⟩ :=
  ⟨rfl, rfl, rfl, rfl⟩

/-- **C5** (amended).  For parseable cell counts and KV values the
voltage gate uses hard-coded thresholds rather than the lookup table: an
error (mentioning "Voltage Mismatch") exactly when `cells ≥ 6 ∧ kv >
2150`, a warning exactly when no error fires and `cells ≤ 4 ∧ kv <
2000`; in particular 6S with 2500KV yields an invalid report whose error
mentions "Voltage Mismatch", while 6S with 1700KV yields a valid one. -/
theorem C5_voltage_thresholds (b m : Drone4Compat.Part) (cells kv : ℚ)
    (hc : Drone4Compat.parseCells (Drone4Compat.cellsRawOf b) = some cells)
    (hk : Drone4Compat.parseKv (Drone4Compat.kvRawOf m) = some kv)
    (hcp : 0 < cells) (hkp : 0 < kv) :
    ((Drone4Compat.checkVoltage b m).1 ≠ [] ↔ (6 ≤ cells ∧ 2150 < kv)) ∧
    ((Drone4Compat.checkVoltage b m).2 ≠ [] ↔
      (¬(6 ≤ cells ∧ 2150 < kv) ∧ cells ≤ 4 ∧ kv < 2000)) ∧
    (∀ e ∈ (Drone4Compat.checkVoltage b m).1,
      containsSub e "Voltage Mismatch" = true) ∧
    Drone4Compat.validate_build Drone4Compat.defaultService Examples.bom6s2500 =
      .ok ⟨false, [Drone4Compat.voltErrMsg 2500], []⟩ ∧
    containsSub (Drone4Compat.voltErrMsg 2500) "Voltage Mismatch" = true ∧
    Drone4Compat.validate_build Drone4Compat.defaultService Examples.bom6s1700 =
      .ok ⟨true, [], []⟩ := by
  rw [Drone4Compat.checkVoltage_eq b m cells kv hc hk]
  rw [if_pos ⟨hcp, hkp⟩]
  refine ⟨?_, ?_, ?_, rfl, voltErrMsg_mentions 2500, rfl⟩
  · split_ifs with h6 h4
    · simp [h6]
    · simp [h6]
    · simp [h6]
  · split_ifs with h6 h4
    · simp [h6]
    · simp [h6, h4]
    · simp [h6, h4]
  · split_ifs with h6 h4
    · intro e he
      rcases List.mem_singleton.mp he with rfl
      exact voltErrMsg_mentions kv
    · intro e he; exact absurd he (List.not_mem_nil e)
    · intro e he; exact absurd he (List.not_mem_nil e)

/-- Witness for C5 (amended) at the 6S/2500KV pair. -/
theorem C5_voltage_thresholds_witness :
    Drone4Compat.parseCells (Drone4Compat.cellsRawOf Examples.batt6S) = some 6 ∧
    Drone4Compat.parseKv (Drone4Compat.kvRawOf Examples.motor2500) = some 2500 ∧
    (((Drone4Compat.checkVoltage Examples.batt6S Examples.motor2500).1 ≠ [] ↔
        (6 ≤ (6:ℚ) ∧ 2150 < (2500:ℚ))) ∧
      ((Drone4Compat.checkVoltage Examples.batt6S Examples.motor2500).2 ≠ [] ↔
        (¬(6 ≤ (6:ℚ) ∧ 2150 < (2500:ℚ)) ∧ (6:ℚ) ≤ 4 ∧ (2500:ℚ) < 2000)) ∧
      (∀ e ∈ (Drone4Compat.checkVoltage Examples.batt6S Examples.motor2500).1,
        containsSub e "Voltage Mismatch" = true) ∧
      Drone4Compat.validate_build Drone4Compat.defaultService Examples.bom6s2500 =
        .ok ⟨false, [Drone4Compat.voltErrMsg 2500], []⟩ ∧
      containsSub (Drone4Compat.voltErrMsg 2500) "Voltage Mismatch" = true ∧
      Drone4Compat.validate_build Drone4Compat.defaultService Examples.bom6s1700 =
        .ok ⟨true, [], []⟩) :=
  ⟨rfl, rfl,
   C5_voltage_thresholds Examples.batt6S Examples.motor2500 6 2500 rfl rfl
     (by norm_num) (by norm_num)⟩

/-! ## C10 — shape of the voltage gate, and the unused VOLTAGE_MAP -/

/-- **C10.** The validator's result never depends on the `VOLTAGE_MAP`
stored by `__init__`; a battery whose cell count parses to exactly 5
contributes neither error nor warning whatever the motor value; and the
voltage gate can only fire as an error for `cells ≥ 6 ∧ kv > 2150` or as
a warning for `cells ≤ 4 ∧ kv < 2000` (with both values parsed and
positive). -/
theorem C10_voltage_gate_shape :
    (∀ (svc : Drone4Compat.CompatibilityService) (bom : List Drone4Compat.Part),
      Drone4Compat.validate_build svc bom =
        Drone4Compat.validate_build Drone4Compat.defaultService bom) ∧
    (∀ b m : Drone4Compat.Part,
      Drone4Compat.parseCells (Drone4Compat.cellsRawOf b) = some 5 →
      Drone4Compat.checkVoltage b m = ([], [])) ∧
    (∀ b m : Drone4Compat.Part, (Drone4Compat.checkVoltage b m).1 ≠ [] →
      ∃ cells kv, Drone4Compat.parseCells (Drone4Compat.cellsRawOf b) = some cells ∧
        Drone4Compat.parseKv (Drone4Compat.kvRawOf m) = some kv ∧
        0 < cells ∧ 0 < kv ∧ 6 ≤ cells ∧ 2150 < kv) ∧
    (∀ b m : Drone4Compat.Part, (Drone4Compat.checkVoltage b m).2 ≠ [] →
      ∃ cells kv, Drone4Compat.parseCells (Drone4Compat.cellsRawOf b) = some cells ∧
        Drone4Compat.parseKv (Drone4Compat.kvRawOf m) = some kv ∧
        0 < cells ∧ 0 < kv ∧ cells ≤ 4 ∧ kv < 2000) := by
  refine ⟨fun svc bom => rfl, ?_, ?_, ?_⟩
  · intro b m hc
    rcases hk : Drone4Compat.parseKv (Drone4Compat.kvRawOf m) with _ | k
    · exact Drone4Compat.checkVoltage_skip b m (Or.inr hk)
    · rw [Drone4Compat.checkVoltage_eq b m 5 k hc hk]
      by_cases h1 : (5:ℚ) > 0 ∧ k > 0
      · rw [if_pos h1, if_neg (by norm_num), if_neg (by norm_num)]
      · rw [if_neg h1]
  · intro b m hne
    rcases hc : Drone4Compat.parseCells (Drone4Compat.cellsRawOf b) with _ | c
    · exact absurd (congrArg Prod.fst (Drone4Compat.checkVoltage_skip b m (Or.inl hc))) hne
    · rcases hk : Drone4Compat.parseKv (Drone4Compat.kvRawOf m) with _ | k
      · exact absurd (congrArg Prod.fst (Drone4Compat.checkVoltage_skip b m (Or.inr hk))) hne
      · rw [Drone4Compat.checkVoltage_eq b m c k hc hk] at hne
        by_cases hpos : c > 0 ∧ k > 0
        · rw [if_pos hpos] at hne
          by_cases h6 : c ≥ 6 ∧ k > 2150
          · exact ⟨c, k, rfl, rfl, hpos.1, hpos.2, h6.1, h6.2⟩
          · rw [if_neg h6] at hne
            exfalso
            by_cases h4 : c ≤ 4 ∧ k < 2000
            · rw [if_pos h4] at hne; exact hne rfl
            · rw [if_neg h4] at hne; exact hne rfl
        · rw [if_neg hpos] at hne; exact absurd rfl hne
  · intro b m hne
    rcases hc : Drone4Compat.parseCells (Drone4Compat.cellsRawOf b) with _ | c
    · exact absurd (congrArg Prod.snd (Drone4Compat.checkVoltage_skip b m (Or.inl hc))) hne
    · rcases hk : Drone4Compat.parseKv (Drone4Compat.kvRawOf m) with _ | k
      · exact absurd (congrArg Prod.snd (Drone4Compat.checkVoltage_skip b m (Or.inr hk))) hne
      · rw [Drone4Compat.checkVoltage_eq b m c k hc hk] at hne
        by_cases hpos : c > 0 ∧ k > 0
        · rw [if_pos hpos] at hne
          by_cases h6 : c ≥ 6 ∧ k > 2150
          · rw [if_pos h6] at hne; exact absurd rfl hne
          · rw [if_neg h6] at hne
            by_cases h4 : c ≤ 4 ∧ k < 2000
            · exact ⟨c, k, rfl, rfl, hpos.1, hpos.2, h4.1, h4.2⟩
            · rw [if_neg h4] at hne; exact absurd rfl hne
        · rw [if_neg hpos] at hne; exact absurd rfl hne

/-- Witness for C10: the map-independence at an empty-map service, the
5S silence, a fired 6S/2500KV error, and a fired 4S/1700KV warning. -/
theorem C10_voltage_gate_shape_witness :
    Drone4Compat.validate_build ⟨[]⟩ Examples.bom6s2500 =
      Drone4Compat.validate_build Drone4Compat.defaultService Examples.bom6s2500 ∧
    Drone4Compat.checkVoltage Examples.batt5S Examples.motor2500 = ([], []) ∧
    (∃ cells kv,
      Drone4Compat.parseCells (Drone4Compat.cellsRawOf Examples.batt6S) = some cells ∧
      Drone4Compat.parseKv (Drone4Compat.kvRawOf Examples.motor2500) = some kv ∧
      0 < cells ∧ 0 < kv ∧ 6 ≤ cells ∧ 2150 < kv) ∧
    (∃ cells kv,
      Drone4Compat.parseCells (Drone4Compat.cellsRawOf Examples.batt4S) = some cells ∧
      Drone4Compat.parseKv (Drone4Compat.kvRawOf Examples.motor1700) = some kv ∧
      0 < cells ∧ 0 < kv ∧ cells ≤ 4 ∧ kv < 2000) :=
  ⟨C10_voltage_gate_shape.1 ⟨[]⟩ Examples.bom6s2500,
   C10_voltage_gate_shape.2.1 Examples.batt5S Examples.motor2500 rfl,
   C10_voltage_gate_shape.2.2.1 Examples.batt6S Examples.motor2500 (by decide),
   C10_voltage_gate_shape.2.2.2 Examples.batt4S Examples.motor1700 (by decide)⟩

/-! ## Stable-sort selection theory -/

namespace Drone3Fusion

/-- One step of the first-maximum fold (proof-side helper). -/
def stepMax {α : Type} (f : α → ℕ) (b : Option α) (e : α) : Option α :=
  match b with
  | none => some e
  | some b' => if f b' < f e then some e else some b'

lemma stepMax_none {α : Type} (f : α → ℕ) (e : α) :
    stepMax f none e = some e := rfl

lemma stepMax_some {α : Type} (f : α → ℕ) (b e : α) :
    stepMax f (some b) e = if f b < f e then some e else some b := rfl

lemma firstMaxEl_cons_none {α : Type} (f : α → ℕ) {cs : List α} (c : α)
    (hm : firstMaxEl f cs = none) : firstMaxEl f (c :: cs) = some c := by
  simp only [firstMaxEl, hm]

lemma firstMaxEl_cons_some {α : Type} (f : α → ℕ) {cs : List α} (c : α)
    {m : α} (hm : firstMaxEl f cs = some m) :
    firstMaxEl f (c :: cs) = if f m > f c then some m else some c := by
  simp only [firstMaxEl, hm]

/-- The head of a stable descending insertion keeps the larger key,
with the existing head winning ties. -/
lemma insDesc_head {α : Type} (f : α → ℕ) (c : α) (l : List α) :
    (insDesc f c l).head? = stepMax f l.head? c := by
  cases l with
  | nil => rfl
  | cons d ds =>
    simp only [insDesc, List.head?, stepMax_some]
    split_ifs <;> first | rfl | omega

/-- Folding insertions into an accumulator tracks the first-maximum fold
on heads. -/
lemma foldl_ins_head {α : Type} (f : α → ℕ) :
    ∀ (l acc : List α),
      (l.foldl (fun a c => insDesc f c a) acc).head? =
        l.foldl (stepMax f) acc.head? := by
  intro l
  induction l with
  | nil => intro acc; rfl
  | cons c cs ih =>
    intro acc
    simp only [List.foldl_cons]
    rw [ih, insDesc_head]

/-- Folding the strict-max step from a seed. -/
lemma foldl_max_some {α : Type} (f : α → ℕ) :
    ∀ (l : List α) (b : α),
      l.foldl (stepMax f) (some b) =
      (match firstMaxEl f l with
        | none => some b
        | some m => if f b < f m then some m else some b) := by
  intro l
  induction l with
  | nil => intro b; rfl
  | cons c cs ih =>
    intro b
    simp only [List.foldl_cons, stepMax_some]
    by_cases hbc : f b < f c
    · rw [if_pos hbc, ih c]
      cases hm : firstMaxEl f cs with
      | none =>
        rw [firstMaxEl_cons_none f c hm]
        dsimp only
        rw [if_pos hbc]
      | some m =>
        rw [firstMaxEl_cons_some f c hm]
        dsimp only
        by_cases hmc : f m > f c
        · rw [if_pos hmc]
          dsimp only
          rw [if_pos (by omega)]
        · rw [if_neg hmc]
          dsimp only
          rw [if_pos hbc]
    · rw [if_neg hbc, ih b]
      cases hm : firstMaxEl f cs with
      | none =>
        rw [firstMaxEl_cons_none f c hm]
        dsimp only
        rw [if_neg hbc]
      | some m =>
        rw [firstMaxEl_cons_some f c hm]
        dsimp only
        by_cases hmc : f m > f c
        · rw [if_pos hmc]
        · rw [if_neg hmc]
          dsimp only
          rw [if_neg (by omega), if_neg hbc]

/-- The head of the stable descending sort is the first maximum. -/
lemma pySortDesc_head {α : Type} (f : α → ℕ) (l : List α) :
    (pySortDesc f l).head? = firstMaxEl f l := by
  unfold pySortDesc
  rw [foldl_ins_head]
  cases l with
  | nil => rfl
  | cons c cs =>
    simp only [List.foldl_cons, List.head?, stepMax_none]
    rw [foldl_max_some f cs c]
    cases hm : firstMaxEl f cs with
    | none => rw [firstMaxEl_cons_none f c hm]
    | some m =>
      rw [firstMaxEl_cons_some f c hm]

/-- `firstMaxEl` always yields an element on a nonempty list. -/
lemma firstMaxEl_isSome {α : Type} (f : α → ℕ) (c : α) (cs : List α) :
    ∃ b, firstMaxEl f (c :: cs) = some b := by
  cases hm : firstMaxEl f cs with
  | none => exact ⟨c, firstMaxEl_cons_none f c hm⟩
  | some m =>
    by_cases hmc : f m > f c
    · exact ⟨m, by rw [firstMaxEl_cons_some f c hm, if_pos hmc]⟩
    · exact ⟨c, by rw [firstMaxEl_cons_some f c hm, if_neg hmc]⟩

/-- The first maximum is a member of the list. -/
lemma firstMaxEl_mem {α : Type} (f : α → ℕ) :
    ∀ (l : List α) (b : α), firstMaxEl f l = some b → b ∈ l := by
  intro l
  induction l with
  | nil => intro b h; cases h
  | cons c cs ih =>
    intro b h
    cases hm : firstMaxEl f cs with
    | none =>
      rw [firstMaxEl_cons_none f c hm] at h
      exact (Option.some.inj h) ▸ List.mem_cons_self c cs
    | some m =>
      rw [firstMaxEl_cons_some f c hm] at h
      by_cases hmc : f m > f c
      · rw [if_pos hmc] at h
        exact List.mem_cons_of_mem c ((Option.some.inj h) ▸ ih m hm)
      · rw [if_neg hmc] at h
        exact (Option.some.inj h) ▸ List.mem_cons_self c cs

/-- The first maximum dominates every element. -/
lemma firstMaxEl_ge {α : Type} (f : α → ℕ) :
    ∀ (l : List α) (b : α), firstMaxEl f l = some b →
      ∀ d ∈ l, f d ≤ f b := by
  intro l
  induction l with
  | nil => intro b h; cases h
  | cons c cs ih =>
    intro b h d hd
    cases hm : firstMaxEl f cs with
    | none =>
      rw [firstMaxEl_cons_none f c hm] at h
      obtain rfl := Option.some.inj h
      have hcs : cs = [] := by
        cases cs with
        | nil => rfl
        | cons e es =>
          obtain ⟨b', hb'⟩ := firstMaxEl_isSome f e es
          rw [hb'] at hm; cases hm
      subst hcs
      rcases List.mem_singleton.mp hd with rfl
      exact le_refl _
    | some m =>
      rw [firstMaxEl_cons_some f c hm] at h
      by_cases hmc : f m > f c
      · rw [if_pos hmc] at h
        obtain rfl := Option.some.inj h
        rcases List.mem_cons.mp hd with rfl | hd'
        · omega
        · exact ih m hm d hd'
      · rw [if_neg hmc] at h
        obtain rfl := Option.some.inj h
        rcases List.mem_cons.mp hd with rfl | hd'
        · exact le_refl _
        · exact le_trans (ih m hm d hd') (by omega)

/-- Everything strictly before the first maximum scores strictly less. -/
lemma firstMaxEl_first {α : Type} (f : α → ℕ) :
    ∀ (l : List α) (b : α), firstMaxEl f l = some b →
      ∃ l₁ l₂, l = l₁ ++ b :: l₂ ∧ ∀ d ∈ l₁, f d < f b := by
  intro l
  induction l with
  | nil => intro b h; cases h
  | cons c cs ih =>
    intro b h
    cases hm : firstMaxEl f cs with
    | none =>
      rw [firstMaxEl_cons_none f c hm] at h
      obtain rfl := Option.some.inj h
      exact ⟨[], cs, rfl, by intro d hd; exact absurd hd (List.not_mem_nil d)⟩
    | some m =>
      rw [firstMaxEl_cons_some f c hm] at h
      by_cases hmc : f m > f c
      · rw [if_pos hmc] at h
        obtain rfl := Option.some.inj h
        obtain ⟨l₁, l₂, hdec, hlt⟩ := ih m hm
        refine ⟨c :: l₁, l₂, by rw [hdec]; rfl, ?_⟩
        intro d hd
        rcases List.mem_cons.mp hd with rfl | hd'
        · omega
        · exact hlt d hd'
      · rw [if_neg hmc] at h
        obtain rfl := Option.some.inj h
        exact ⟨[], cs, rfl, by intro d hd; exact absurd hd (List.not_mem_nil d)⟩

end Drone3Fusion

/-! ## C8 — fusion rejection and the no-candidate outcome -/

namespace Drone3Fusion

/-- A candidate only passes the final gate when its extracted specs
satisfy the critical-key validation. -/
lemma gateCandidate_validates (pt title link : String) (price : ℚ)
    (scraped : Scraped) (eng2 : List (String × PyVal)) (c : Candidate)
    (h : gateCandidate pt title link price scraped eng2 = some c) :
    validate_critical_specs pt c.engineering_data = true := by
  unfold gateCandidate at h
  by_cases hval : validate_critical_specs pt eng2 = true
  · rw [if_pos hval] at h
    obtain rfl := Option.some.inj h
    exact hval
  · rw [if_neg hval] at h
    exact Option.noConfusion h

end Drone3Fusion

/-- **C8.** Every candidate emitted by `process_single_candidate`
satisfies the category's critical-key validation (a candidate still
missing a critical key after extraction is rejected, whatever its price
or image quality); the composite part returned by `fuse_component_data`
carries validated specs as well; and when every raw search result is
filtered out, fusion returns `none` — a normal value, not an exception
(the embedding is a total function into `Option`). -/
theorem C8_fusion_rejection :
    (∀ (env : Drone3Fusion.FusionEnv) (pt : String) (promptObj : Option String)
      (minConf : ℚ) (item : Drone3Fusion.SearchItem) (c : Drone3Fusion.Candidate),
      Drone3Fusion.processSingleCandidate env pt promptObj minConf item = some c →
      Drone3Fusion.validate_critical_specs pt c.engineering_data = true) ∧
    (∀ (env : Drone3Fusion.FusionEnv) (pt query : String) (lim : ℕ) (minConf : ℚ)
      (part : Drone3Fusion.FusedPart),
      Drone3Fusion.fuse_component_data env pt query lim minConf = some part →
      Drone3Fusion.validate_critical_specs pt part.engineering_specs = true) ∧
    (∀ (env : Drone3Fusion.FusionEnv) (pt query : String) (lim : ℕ) (minConf : ℚ)
      (prompt : String), env.genPrompt pt = some prompt →
      (∀ item ∈ env.findComponents query lim,
        Drone3Fusion.processSingleCandidate env pt (some prompt) minConf item = none) →
      Drone3Fusion.fuse_component_data env pt query lim minConf = none) := by
  have hproc : ∀ (env : Drone3Fusion.FusionEnv) (pt : String)
      (promptObj : Option String) (minConf : ℚ) (item : Drone3Fusion.SearchItem)
      (c : Drone3Fusion.Candidate),
      Drone3Fusion.processSingleCandidate env pt promptObj minConf item = some c →
      Drone3Fusion.validate_critical_specs pt c.engineering_data = true := by
    intro env pt promptObj minConf item c h
    unfold Drone3Fusion.processSingleCandidate at h
    split at h
    case _ link title =>
      split at h
      · exact absurd h (by simp)
      split at h
      · exact absurd h (by simp)
      split at h
      · exact absurd h (by simp)
      split at h
      · exact absurd h (by simp)
      case _ scraped =>
        split at h
        case _ price =>
          split at h
          · exact absurd h (by simp)
          · exact Drone3Fusion.gateCandidate_validates _ _ _ _ _ _ _ h
        · exact absurd h (by simp)
    · exact absurd h (by simp)
  refine ⟨hproc, ?_, ?_⟩
  · intro env pt query lim minConf part h
    simp only [Drone3Fusion.fuse_component_data] at h
    split at h
    · exact absurd h (by simp)
    case _ prompt hprompt =>
      split at h
      · exact absurd h (by simp)
      case _ hres =>
        split at h
        · exact absurd h (by simp)
        case _ c cs hs =>
          split at h
          · exact absurd h (by simp)
          case _ best rest hsort =>
            obtain rfl := Option.some.inj h
            have hhead : Drone3Fusion.firstMaxEl Drone3Fusion.rank_candidate
                (c :: cs) = some best := by
              rw [← Drone3Fusion.pySortDesc_head, hsort]; rfl
            have hbestmem : best ∈ c :: cs :=
              Drone3Fusion.firstMaxEl_mem Drone3Fusion.rank_candidate
                (c :: cs) best hhead
            rw [← hs] at hbestmem
            obtain ⟨item, _, hitem⟩ := List.mem_filterMap.mp hbestmem
            exact hproc env pt (some prompt) minConf item best hitem
  · intro env pt query lim minConf prompt hprompt hall
    simp only [Drone3Fusion.fuse_component_data, hprompt]
    by_cases hres : env.findComponents query lim = []
    · rw [if_pos hres]
    · rw [if_neg hres]
      have hsv : Drone3Fusion.fuseSurvivors env pt prompt minConf
          (env.findComponents query lim) = [] := by
        unfold Drone3Fusion.fuseSurvivors
        exact List.filterMap_eq_nil_iff.mpr hall
      rw [hsv]

/-- Witness for C8 at concrete inputs: a successfully processed motor
candidate validates, and an environment whose raw results all fail to
process yields `none`. -/
theorem C8_fusion_rejection_witness :
    (Drone3Fusion.processSingleCandidate Examples.envC9 "Motors" (some "PROMPT")
        0 Examples.itemA = some Examples.candA →
      Drone3Fusion.validate_critical_specs "Motors"
        Examples.candA.engineering_data = true) ∧
    Drone3Fusion.validate_critical_specs "Motors"
      Examples.candA.engineering_data = true ∧
    Examples.envAllFiltered.genPrompt "Motors" = some "PROMPT" ∧
    Drone3Fusion.fuse_component_data Examples.envAllFiltered "Motors" "q" 3 0 =
      none :=
  ⟨C8_fusion_rejection.1 Examples.envC9 "Motors" (some "PROMPT") 0
      Examples.itemA Examples.candA,
   C8_fusion_rejection.1 Examples.envC9 "Motors" (some "PROMPT") 0
      Examples.itemA Examples.candA rfl,
   rfl,
   C8_fusion_rejection.2.2 Examples.envAllFiltered "Motors" "q" 3 0 "PROMPT" rfl
     (by intro item hitem
         rcases hitem with _ | ⟨_, hitem⟩
         · rfl
         · rcases hitem with _ | ⟨_, hitem⟩
           · rfl
           · exact absurd hitem (List.not_mem_nil _))⟩

/-! ## C9 — ranking and selection -/

/-- **C9** (counterexample to the claim as stated).  On a concrete run
both candidates survive.  Scoring them with exactly the claim's terms
(large 20 for multimodal-sourced specs, medium 10 for tables, small 5
for an image, 1 per field — `specClaimScore`), the first-seen candidate
A scores 23 against B's 21, so the claimed rule must select A — yet
fusion returns B, because `rank_candidate` additionally awards 5 to
specs sourced by the text-inference fallback (26 against 23). -/
theorem C9_counterexample :
    Drone3Fusion.fuseSurvivors Examples.envC9 "Motors" "PROMPT" 0
      (Examples.envC9.findComponents "q" 3) = [Examples.candA, Examples.candB] ∧
    Drone3Fusion.specClaimScore Examples.candA = 23 ∧
    Drone3Fusion.specClaimScore Examples.candB = 21 ∧
    Drone3Fusion.rank_candidate Examples.candA = 23 ∧
    Drone3Fusion.rank_candidate Examples.candB = 26 ∧
    (Drone3Fusion.fuse_component_data Examples.envC9 "Motors" "q" 3 0).map
      (fun p => p.product_name) = some "BetaMotor 2207" ∧
    Examples.candA.product_name = "AlphaMotor 2207" :=
  ⟨rfl, rfl, rfl, rfl, rfl, rfl, rfl⟩

/-- **C9** (amended).  For every nonempty survivor list, fusion selects
the first candidate attaining the maximal `rank_candidate` score — the
score being the claim's terms plus 5 for text-inference-sourced specs,
with the per-field count taken over all entries of the spec dict — and
ties are broken in favour of the earlier (first-seen) candidate. -/
theorem C9_first_max_selection (env : Drone3Fusion.FusionEnv)
    (pt query : String) (lim : ℕ) (minConf : ℚ) (prompt : String)
    (hprompt : env.genPrompt pt = some prompt)
    (hne : Drone3Fusion.fuseSurvivors env pt prompt minConf
      (env.findComponents query lim) ≠ []) :
    ∃ best,
      Drone3Fusion.firstMaxEl Drone3Fusion.rank_candidate
        (Drone3Fusion.fuseSurvivors env pt prompt minConf
          (env.findComponents query lim)) = some best ∧
      Drone3Fusion.fuse_component_data env pt query lim minConf =
        some (Drone3Fusion.compositeOf pt
          (Drone3Fusion.fuseSurvivors env pt prompt minConf
            (env.findComponents query lim)) best) ∧
      best ∈ Drone3Fusion.fuseSurvivors env pt prompt minConf
        (env.findComponents query lim) ∧
      (∀ d ∈ Drone3Fusion.fuseSurvivors env pt prompt minConf
        (env.findComponents query lim),
        Drone3Fusion.rank_candidate d ≤ Drone3Fusion.rank_candidate best) ∧
      (∃ l₁ l₂, Drone3Fusion.fuseSurvivors env pt prompt minConf
          (env.findComponents query lim) = l₁ ++ best :: l₂ ∧
        ∀ d ∈ l₁, Drone3Fusion.rank_candidate d < Drone3Fusion.rank_candidate best) := by
  rcases hs : Drone3Fusion.fuseSurvivors env pt prompt minConf
      (env.findComponents query lim) with _ | ⟨c, cs⟩
  · exact absurd hs hne
  · obtain ⟨b, hb⟩ := Drone3Fusion.firstMaxEl_isSome
      Drone3Fusion.rank_candidate c cs
    refine ⟨b, hb, ?_,
      Drone3Fusion.firstMaxEl_mem Drone3Fusion.rank_candidate _ b hb,
      Drone3Fusion.firstMaxEl_ge Drone3Fusion.rank_candidate _ b hb,
      Drone3Fusion.firstMaxEl_first Drone3Fusion.rank_candidate _ b hb⟩
    have hres : env.findComponents query lim ≠ [] := by
      intro hnil
      apply hne
      unfold Drone3Fusion.fuseSurvivors
      rw [hnil]
      rfl
    have hhead : (Drone3Fusion.pySortDesc Drone3Fusion.rank_candidate
        (c :: cs)).head? = some b := by
      rw [Drone3Fusion.pySortDesc_head]
      exact hb
    simp only [Drone3Fusion.fuse_component_data, hprompt]
    rw [if_neg hres, hs]
    dsimp only
    rcases hsort : Drone3Fusion.pySortDesc Drone3Fusion.rank_candidate
        (c :: cs) with _ | ⟨best', rest⟩
    · rw [hsort] at hhead; exact Option.noConfusion hhead
    · rw [hsort] at hhead
      obtain rfl := Option.some.inj hhead
      rfl

/-- Witness for C9 (amended) at the concrete environment of the
counterexample. -/
theorem C9_first_max_selection_witness :
    Examples.envC9.genPrompt "Motors" = some "PROMPT" ∧
    Drone3Fusion.fuseSurvivors Examples.envC9 "Motors" "PROMPT" 0
      (Examples.envC9.findComponents "q" 3) ≠ [] ∧
    (∃ best,
      Drone3Fusion.firstMaxEl Drone3Fusion.rank_candidate
        (Drone3Fusion.fuseSurvivors Examples.envC9 "Motors" "PROMPT" 0
          (Examples.envC9.findComponents "q" 3)) = some best ∧
      Drone3Fusion.fuse_component_data Examples.envC9 "Motors" "q" 3 0 =
        some (Drone3Fusion.compositeOf "Motors"
          (Drone3Fusion.fuseSurvivors Examples.envC9 "Motors" "PROMPT" 0
            (Examples.envC9.findComponents "q" 3)) best) ∧
      best ∈ Drone3Fusion.fuseSurvivors Examples.envC9 "Motors" "PROMPT" 0
        (Examples.envC9.findComponents "q" 3) ∧
      (∀ d ∈ Drone3Fusion.fuseSurvivors Examples.envC9 "Motors" "PROMPT" 0
        (Examples.envC9.findComponents "q" 3),
        Drone3Fusion.rank_candidate d ≤ Drone3Fusion.rank_candidate best) ∧
      (∃ l₁ l₂, Drone3Fusion.fuseSurvivors Examples.envC9 "Motors" "PROMPT" 0
          (Examples.envC9.findComponents "q" 3) = l₁ ++ best :: l₂ ∧
        ∀ d ∈ l₁, Drone3Fusion.rank_candidate d < Drone3Fusion.rank_candidate best)) :=
  ⟨rfl, by decide,
   C9_first_max_selection Examples.envC9 "Motors" "q" 3 0 "PROMPT" rfl (by decide)⟩

/-- Witness for C3 at the concrete fixture BOM. -/
theorem C3_mass_formula_witness :
    Drone2Phys.calculate_auw Examples.bomPhys =
      Drone2Phys.specTotalMass Examples.bomPhys ∧
    Drone2Phys.calculate_auw Examples.bomPhys =
      Drone2Phys.calculate_auw Examples.bomPhys :=
  C3_mass_formula Examples.bomPhys
